import Mathlib

/-!
Verification of the plox tree-walking Lox interpreter (Python) against its
natural-language specification.

The development shallowly embeds the relevant parts of the source:

* `src/plox/parsing.py`  — the recursive-descent parser (`Parser`), including
  its `_synchronize` stub and `parse` loop;
* `src/plox/resolving.py` — the static `Resolver` pass;
* `src/plox/interpreting.py` — the tree-walking `Interpreter`, environments
  (`src/plox/environments.py`) and the callable/class/instance runtime;
* the built-in function table of `src/plox/standard_library.py`.

Conventions of the embedding:

* Python machine floats are modelled as exact rationals (`ℚ`); no claim
  settled here depends on rounding, NaN or signed zero.
* Python object *identity* (used by `dict` keys and `==` on class instances)
  is modelled by explicit numeric ids: every expression node that the
  resolver may key carries an `eid`, runtime function/class values carry a
  fresh id drawn from an interpreter counter, and instances are references
  into an instance store.
* Mutable shared environments are modelled as a store of frames indexed by
  `Nat`; an `Environment` value in Python corresponds to a frame id.
* Python exceptions are values of an error type carried in an `Except`
  layer: `PloxRuntimeError`, the `Return` unwinding exception, and
  host-level exceptions (`TypeError`, `ValueError`, ...) that the source can
  raise are separate constructors, because `except` clauses in the source
  discriminate between them.
* All recursive procedures take a fuel parameter (`Nat`) and return `none`
  when the fuel is exhausted; `none` means "the Python program has not
  finished after that many steps", never a defined result.  This matters:
  the source parser really can loop forever (see the claims about
  `_synchronize`).
* Each function keeps the source's name (camel-cased) where Lean allows it.
-/

namespace Plox

/-- Token kinds, as used by `plox.tokens.TokenType` (the `tokens` module is
not part of `src/`; the enumeration is reconstructed from its uses in
`scanning.py` and `parsing.py` and from spec §3). -/
inductive TokenType where
  | LEFT_PAREN | RIGHT_PAREN | LEFT_BRACE | RIGHT_BRACE
  | LEFT_BRACKET | RIGHT_BRACKET
  | COMMA | DOT | MINUS | PLUS | SEMICOLON | SLASH | STAR
  | BANG | BANG_EQUAL | EQUAL | EQUAL_EQUAL
  | GREATER | GREATER_EQUAL | LESS | LESS_EQUAL
  | IDENTIFIER | STRING | NUMBER
  | AND | CLASS | ELSE | FALSE | FUN | FOR | FOREACH | IF | NIL | OR
  | PRINT | RETURN | SUPER | THIS | TRUE | VAR | WHILE
  | EOF
deriving DecidableEq, Repr

/-- Literal payload of a token: a number (for `NUMBER`), or a string (for
`STRING`, and for the synthesized identifier tokens the parser builds in
`_foreach_statement`). -/
inductive TokLit where
  | num (q : ℚ)
  | str (s : String)
deriving DecidableEq, Repr

/-- A scanner token: kind, lexeme, optional literal payload, source line
(`-1` on parser-synthesized tokens, hence `Int`).  Models `plox.tokens.Token`
per spec §3. -/
structure Token where
  type : TokenType
  lexeme : String
  literal : Option TokLit
  line : Int
deriving DecidableEq, Repr

/-- Value carried by an `expressions.Literal` node (`None`, `bool`, `float`
or `str` in the source). -/
inductive LitVal where
  | lnil
  | lbool (b : Bool)
  | lnum (q : ℚ)
  | lstr (s : String)
deriving DecidableEq, Repr

/-- An `expressions.Variable` node: resolver-keyed identity plus the name
token.  Kept as a separate structure because `statements.Class` stores its
superclass as exactly this node shape. -/
structure VarExpr where
  eid : Nat
  name : Token
deriving Repr

/-- Expression AST, mirroring `plox/expressions.py` (plus `Super` and
`ListInitializer`, which `parsing.py` and `interpreting.py` construct and
consume).  Nodes that the resolver side table may key (`variable`, `assign`,
`this`, `superE`) carry an `eid` modelling Python object identity. -/
inductive Expr where
  | literal (value : LitVal)
  | grouping (expression : Expr)
  | unary (operator : Token) (right : Expr)
  | binary (left : Expr) (operator : Token) (right : Expr)
  | logical (left : Expr) (operator : Token) (right : Expr)
  | variable (eid : Nat) (name : Token)
  | assign (eid : Nat) (name : Token) (value : Expr)
  | call (callee : Expr) (paren : Token) (arguments : List Expr)
  | get (object_ : Expr) (name : Token)
  | set (object_ : Expr) (name : Token) (value : Expr)
  | this (eid : Nat) (keyword : Token)
  | superE (eid : Nat) (keyword : Token) (method : Token)
  | listInitializer (items : List Expr)
deriving Repr

mutual
/-- Statement AST, mirroring `plox/statements.py`.  Statement lists produced
by `Parser._block` hold `Option Stmt`, because `_declaration` returns `None`
for a failed declaration and `_block` appends that `None` unfiltered. -/
inductive Stmt where
  | expression (e : Expr)
  | print (e : Expr)
  | var (name : Token) (initializer : Option Expr)
  | block (statements : List (Option Stmt))
  | ifS (condition : Expr) (thenBranch : Stmt) (elseBranch : Option Stmt)
  | whileS (condition : Expr) (body : Stmt)
  | function (decl : FunctionDecl)
  | ret (keyword : Token) (value : Option Expr)
  | classS (name : Token) (superclass : Option VarExpr) (methods : List FunctionDecl)
/-- A `statements.Function` declaration (name, parameter tokens, body). -/
inductive FunctionDecl where
  | mk (name : Token) (params : List Token) (body : List (Option Stmt))
end

/-- Name of a function declaration. -/
def FunctionDecl.name : FunctionDecl → Token
  | .mk n _ _ => n

/-- Parameters of a function declaration. -/
def FunctionDecl.params : FunctionDecl → List Token
  | .mk _ p _ => p

/-- Body of a function declaration. -/
def FunctionDecl.body : FunctionDecl → List (Option Stmt)
  | .mk _ _ b => b

/-! ## Parser (`plox/parsing.py`) -/

/-- Exceptions a `Parser` method can raise: `parsing.ParseError` (raised via
`_error` after reporting through the error callback), or a Python
`IndexError` from `_tokens[...]` subscripts (possible only on token lists
that violate the scanner contract). -/
inductive PError where
  | parseError
  | pyIndexError
deriving DecidableEq, Repr

/-- Parser state: the token list and cursor of the `Parser` object, the
errors reported so far through the error callback (appended in call order),
the lines printed to stdout (`_synchronize` prints `"SYNC"`), and a counter
supplying fresh expression identities. -/
structure ParserState where
  tokens : List Token
  current : Nat
  errors : List (Token × String)
  printed : List String
  nextId : Nat
deriving Repr

/-- Parser computations: state, plus `Except` for in-flight Python
exceptions, plus an outer `Option` that is `none` exactly when the fuel ran
out before the source would have returned. -/
def PM (α : Type) : Type := ParserState → Option (Except PError α × ParserState)

/-- Monadic return for `PM`. -/
def pmPure {α : Type} (a : α) : PM α := fun s => some (.ok a, s)

/-- Monadic bind for `PM`: exceptions and fuel exhaustion short-circuit. -/
def pmBind {α β : Type} (m : PM α) (f : α → PM β) : PM β := fun s =>
  match m s with
  | none => none
  | some (.error e, s') => some (.error e, s')
  | some (.ok a, s') => f a s'

instance : Monad PM where
  pure := pmPure
  bind := pmBind

/-- Read the parser state. -/
def getP : PM ParserState := fun s => some (.ok s, s)

/-- Replace the parser state. -/
def setP (s' : ParserState) : PM Unit := fun _ => some (.ok (), s')

/-- Model of `Parser._error` at a `raise` site: invoke the error callback
(record the token and message) and raise `ParseError`. -/
def errorThrow {α : Type} (token : Token) (message : String) : PM α := fun s =>
  some (.error .parseError, { s with errors := s.errors ++ [(token, message)] })

/-- Model of `Parser._error` at a non-`raise` site (`_function`,
`_finish_call` arity caps): report through the callback and continue. -/
def errorReport (token : Token) (message : String) : PM Unit := fun s =>
  some (.ok (), { s with errors := s.errors ++ [(token, message)] })

/-- The `try/except ParseError` of `_declaration`: only `ParseError` is
caught; other exceptions (and fuel exhaustion) propagate. -/
def pmCatchParseError {α : Type} (m : PM α) (handler : PM α) : PM α := fun s =>
  match m s with
  | none => none
  | some (.error .parseError, s') => handler s'
  | some (.error e, s') => some (.error e, s')
  | some (.ok a, s') => some (.ok a, s')

/-- `Parser._peek`: `self._tokens[self._current]`. -/
def peek : PM Token := fun s =>
  match s.tokens[s.current]? with
  | some t => some (.ok t, s)
  | none => some (.error .pyIndexError, s)

/-- `Parser._previous`: `self._tokens[self._current - 1]`, with Python's
negative indexing (`current = 0` reads the last token). -/
def previous : PM Token := fun s =>
  match s.current with
  | 0 =>
    match s.tokens.getLast? with
    | some t => some (.ok t, s)
    | none => some (.error .pyIndexError, s)
  | k + 1 =>
    match s.tokens[k]? with
    | some t => some (.ok t, s)
    | none => some (.error .pyIndexError, s)

/-- `Parser._is_at_end`: the current token is `EOF`. -/
def isAtEnd : PM Bool := do
  let t ← peek
  pure (t.type == .EOF)

/-- `Parser._check`: current token has the given kind (false at `EOF`). -/
def check (type_ : TokenType) : PM Bool := do
  if ← isAtEnd then
    pure false
  else do
    let t ← peek
    pure (t.type == type_)

/-- `Parser._advance`: step the cursor unless at `EOF`; return `_previous`. -/
def advanceP : PM Token := do
  if !(← isAtEnd) then do
    let s ← getP
    setP { s with current := s.current + 1 }
  previous

/-- `Parser._match`: try each kind in order; on the first hit, advance and
return true. -/
def matchT : List TokenType → PM Bool
  | [] => pure false
  | type_ :: rest => do
    if ← check type_ then do
      let _ ← advanceP
      pure true
    else
      matchT rest

/-- `Parser._consume`: advance past a token of the expected kind, else
report and raise at the current token. -/
def consume (type_ : TokenType) (message : String) : PM Token := do
  if ← check type_ then
    advanceP
  else do
    let t ← peek
    errorThrow t message

/-- `Parser._synchronize` as written in the source: it prints `"SYNC"` and
discards no tokens. -/
def synchronize : PM Unit := do
  let s ← getP
  setP { s with printed := s.printed ++ ["SYNC"] }

/-- Fresh identity for a parser-built resolver-keyed expression node. -/
def freshId : PM Nat := do
  let s ← getP
  setP { s with nextId := s.nextId + 1 }
  pure s.nextId

/-- Literal value of a `NUMBER`/`STRING` token, as `expr.Literal(self._previous().literal)`
uses it (a token without payload yields Python `None`, i.e. nil). -/
def litOfToken (t : Token) : LitVal :=
  match t.literal with
  | some (.num q) => .lnum q
  | some (.str s) => .lstr s
  | none => .lnil

/-- The `Token(TokenType.IDENTIFIER, "it", "it", -1)` node built by
`_foreach_statement`. -/
def itToken : Token := ⟨.IDENTIFIER, "it", some (.str "it"), -1⟩

/-- The `Token(TokenType.IDENTIFIER, "iterate", "iterate", -1)` node. -/
def iterateToken : Token := ⟨.IDENTIFIER, "iterate", some (.str "iterate"), -1⟩

/-- The `Token(TokenType.IDENTIFIER, "get", "get", -1)` node. -/
def getToken : Token := ⟨.IDENTIFIER, "get", some (.str "get"), -1⟩

/-- The `Token(TokenType.IDENTIFIER, "hasItems", "hasItems", -1)` node. -/
def hasItemsToken : Token := ⟨.IDENTIFIER, "hasItems", some (.str "hasItems"), -1⟩

/-- The `Token(TokenType.IDENTIFIER, "move", "hasItems", -1)` node (the
source writes literal `"hasItems"` on the `move` token). -/
def moveToken : Token := ⟨.IDENTIFIER, "move", some (.str "hasItems"), -1⟩

/-- The `Token(TokenType.LEFT_PAREN, "(", "(", -1)` node. -/
def lparenToken : Token := ⟨.LEFT_PAREN, "(", some (.str "("), -1⟩

mutual

/-- `Parser._declaration`: dispatch on `class`/`fun`/`var`, else a statement;
`ParseError` is caught, `_synchronize` runs, and `None` is returned. -/
def declaration : Nat → PM (Option Stmt)
  | 0 => fun _ => none
  | n + 1 =>
    pmCatchParseError
      (do
        if ← matchT [.CLASS] then do
          let c ← classDeclaration n
          pure (some c)
        else if ← matchT [.FUN] then do
          let f ← functionP n "function"
          pure (some (Stmt.function f))
        else if ← matchT [.VAR] then do
          let v ← varDeclaration n
          pure (some v)
        else do
          let st ← statement n
          pure (some st))
      (do
        synchronize
        pure none)

/-- `Parser._class_declaration`. -/
def classDeclaration : Nat → PM Stmt
  | 0 => fun _ => none
  | n + 1 => do
    let name ← consume .IDENTIFIER "Expect class name."
    let superclass ← (do
      if ← matchT [.LESS] then do
        let _ ← consume .IDENTIFIER "Expect superclass name."
        let t ← previous
        let id_ ← freshId
        pure (some (⟨id_, t⟩ : VarExpr))
      else
        pure none)
    let _ ← consume .LEFT_BRACE "Expect \x27\x7b\x27 before class body."
    let methods ← classBody n []
    let _ ← consume .RIGHT_BRACE "Expect \x27\x7d\x27 after class body."
    pure (Stmt.classS name superclass methods)

/-- The method-collecting loop of `_class_declaration`. -/
def classBody : Nat → List FunctionDecl → PM (List FunctionDecl)
  | 0, _ => fun _ => none
  | n + 1, acc => do
    if ← check .RIGHT_BRACE then
      pure acc
    else if ← isAtEnd then
      pure acc
    else do
      let m ← functionP n "method"
      classBody n (acc ++ [m])

/-- `Parser._var_declaration`. -/
def varDeclaration : Nat → PM Stmt
  | 0 => fun _ => none
  | n + 1 => do
    let name ← consume .IDENTIFIER "Expect variable name."
    let initializer ← (do
      if ← matchT [.EQUAL] then do
        let e ← expression n
        pure (some e)
      else
        pure none)
    let _ ← consume .SEMICOLON "Expect \x27;\x27 after variable declaration."
    pure (Stmt.var name initializer)

/-- `Parser._statement`. -/
def statement : Nat → PM Stmt
  | 0 => fun _ => none
  | n + 1 => do
    if ← matchT [.FOR] then forStatement n
    else if ← matchT [.FOREACH] then foreachStatement n
    else if ← matchT [.IF] then ifStatement n
    else if ← matchT [.PRINT] then printStatement n
    else if ← matchT [.RETURN] then returnStatement n
    else if ← matchT [.WHILE] then whileStatement n
    else if ← matchT [.LEFT_BRACE] then do
      let ss ← blockP n
      pure (Stmt.block ss)
    else expressionStatement n

/-- `Parser._if_statement`. -/
def ifStatement : Nat → PM Stmt
  | 0 => fun _ => none
  | n + 1 => do
    let _ ← consume .LEFT_PAREN "Expect \x27(\x27 after \x27if\x27."
    let condition ← expression n
    let _ ← consume .RIGHT_PAREN "Expect \x27)\x27 after if condition."
    let thenBranch ← statement n
    let elseBranch ← (do
      if ← matchT [.ELSE] then do
        let e ← statement n
        pure (some e)
      else
        pure none)
    pure (Stmt.ifS condition thenBranch elseBranch)

/-- `Parser._print_statement`. -/
def printStatement : Nat → PM Stmt
  | 0 => fun _ => none
  | n + 1 => do
    let value ← expression n
    let _ ← consume .SEMICOLON "Expect \x27;\x27 after value."
    pure (Stmt.print value)

/-- `Parser._return_statement` (the `return` keyword is `_previous()`). -/
def returnStatement : Nat → PM Stmt
  | 0 => fun _ => none
  | n + 1 => do
    let keyword ← previous
    let value ← (do
      if !(← check .SEMICOLON) then do
        let e ← expression n
        pure (some e)
      else
        pure none)
    let _ ← consume .SEMICOLON "Expect \x27;\x27 after return value."
    pure (Stmt.ret keyword value)

/-- `Parser._while_statement`. -/
def whileStatement : Nat → PM Stmt
  | 0 => fun _ => none
  | n + 1 => do
    let _ ← consume .LEFT_PAREN "Expect \x27(\x27 after \x27while\x27."
    let condition ← expression n
    let _ ← consume .RIGHT_PAREN "Expect \x27)\x27 after condition."
    let body ← statement n
    pure (Stmt.whileS condition body)

/-- `Parser._for_statement`: parses the clauses and desugars into
`Block`/`While` at parse time. -/
def forStatement : Nat → PM Stmt
  | 0 => fun _ => none
  | n + 1 => do
    let _ ← consume .LEFT_PAREN "Expect \x27(\x27 after \x27for\x27."
    let initializer ← (do
      if ← matchT [.SEMICOLON] then
        pure none
      else if ← matchT [.VAR] then do
        let v ← varDeclaration n
        pure (some v)
      else do
        let e ← expressionStatement n
        pure (some e))
    let condition ← (do
      if !(← check .SEMICOLON) then do
        let c ← expression n
        pure (some c)
      else
        pure none)
    let _ ← consume .SEMICOLON "Expect \x27;\x27 after loop condition."
    let increment ← (do
      if !(← check .RIGHT_PAREN) then do
        let i ← expression n
        pure (some i)
      else
        pure none)
    let _ ← consume .RIGHT_PAREN "Expect \x27)\x27 after for clauses."
    let body ← statement n
    let body :=
      match increment with
      | some inc => Stmt.block [some body, some (Stmt.expression inc)]
      | none => body
    let condition :=
      match condition with
      | some c => c
      | none => Expr.literal (.lbool true)
    let body := Stmt.whileS condition body
    let body :=
      match initializer with
      | some ini => Stmt.block [some ini, some body]
      | none => body
    pure body

/-- `Parser._foreach_statement`: desugars into the iterator protocol calls
on synthesized `it` tokens. -/
def foreachStatement : Nat → PM Stmt
  | 0 => fun _ => none
  | n + 1 => do
    let _ ← consume .LEFT_PAREN "Expect \x27(\x27 after \x27for\x27."
    let _ ← consume .IDENTIFIER "Expect identifier after \x27foreach(\x27."
    let loopVariable ← previous
    let _ ← consume .SEMICOLON "Expect \x27;\x27 after foreach variable."
    let iterable ← expression n
    let _ ← consume .RIGHT_PAREN "Expect \x27)\x27 after foreach iterable."
    let body ← statement n
    let iteratorDeclaration :=
      Stmt.var itToken
        (some (Expr.call (Expr.get iterable iterateToken) lparenToken []))
    let id1 ← freshId
    let assignment_ :=
      Stmt.var loopVariable
        (some (Expr.call (Expr.get (Expr.variable id1 itToken) getToken) lparenToken []))
    let id2 ← freshId
    let condition :=
      Expr.call (Expr.get (Expr.variable id2 itToken) hasItemsToken) lparenToken []
    let id3 ← freshId
    let increment :=
      Expr.call (Expr.get (Expr.variable id3 itToken) moveToken) lparenToken []
    let body := Stmt.block [some assignment_, some body, some (Stmt.expression increment)]
    pure (Stmt.block [some iteratorDeclaration, some (Stmt.whileS condition body)])

/-- `Parser._expression_statement`. -/
def expressionStatement : Nat → PM Stmt
  | 0 => fun _ => none
  | n + 1 => do
    let value ← expression n
    let _ ← consume .SEMICOLON "Expect \x27;\x27 after expression."
    pure (Stmt.expression value)

/-- `Parser._function` (shared by `fun` declarations and class methods). -/
def functionP : Nat → String → PM FunctionDecl
  | 0, _ => fun _ => none
  | n + 1, kind => do
    let name ← consume .IDENTIFIER ("Expect " ++ kind ++ " name.")
    let _ ← consume .LEFT_PAREN ("Expect \x27(\x27 after " ++ kind ++ " name.")
    let parameters ← (do
      if !(← check .RIGHT_PAREN) then do
        let p ← consume .IDENTIFIER "Expect parameter name."
        paramsLoop n [p]
      else
        pure [])
    let _ ← consume .RIGHT_PAREN "Expect \x27)\x27 after parameters."
    let _ ← consume .LEFT_BRACE ("Expect \x27\x7b\x27 before " ++ kind ++ " body.")
    let body ← blockP n
    pure (FunctionDecl.mk name parameters body)

/-- The comma-separated parameter loop of `_function`; at 255 or more
parameters the error is reported but parsing continues. -/
def paramsLoop : Nat → List Token → PM (List Token)
  | 0, _ => fun _ => none
  | n + 1, acc => do
    if ← matchT [.COMMA] then do
      if acc.length ≥ 255 then do
        let t ← peek
        errorReport t "Can\x27t have more than 255 parameters."
      let p ← consume .IDENTIFIER "Expect parameter name."
      paramsLoop n (acc ++ [p])
    else
      pure acc

/-- `Parser._block`: collect declarations (possibly `None`) until `}`. -/
def blockP : Nat → PM (List (Option Stmt))
  | 0 => fun _ => none
  | n + 1 => do
    let statements ← blockLoop n []
    let _ ← consume .RIGHT_BRACE "Expect \x27\x7d\x27 after block."
    pure statements

/-- The declaration loop of `_block`. -/
def blockLoop : Nat → List (Option Stmt) → PM (List (Option Stmt))
  | 0, _ => fun _ => none
  | n + 1, acc => do
    if ← check .RIGHT_BRACE then
      pure acc
    else if ← isAtEnd then
      pure acc
    else do
      let d ← declaration n
      blockLoop n (acc ++ [d])

/-- `Parser._expression`. -/
def expression : Nat → PM Expr
  | 0 => fun _ => none
  | n + 1 => assignment n

/-- `Parser._assignment`: on `=`, a `Variable` target yields a fresh
`Assign` node, a `Get` target yields a `Set` node, anything else reportsit
"Invalid assignment target." without raising and the LHS is returned. -/
def assignment : Nat → PM Expr
  | 0 => fun _ => none
  | n + 1 => do
    let e ← orP n
    if ← matchT [.EQUAL] then do
      let equals ← previous
      let value ← assignment n
      match e with
      | .variable _ name => do
        let id_ ← freshId
        pure (Expr.assign id_ name value)
      | .get object_ name =>
        pure (Expr.set object_ name value)
      | _ => do
        errorReport equals "Invalid assignment target."
        pure e
    else
      pure e

/-- `Parser._or`. -/
def orP : Nat → PM Expr
  | 0 => fun _ => none
  | n + 1 => do
    let e ← andP n
    orLoop n e

/-- The `or` operator loop. -/
def orLoop : Nat → Expr → PM Expr
  | 0, _ => fun _ => none
  | n + 1, e => do
    if ← matchT [.OR] then do
      let operator ← previous
      let right ← andP n
      orLoop n (Expr.logical e operator right)
    else
      pure e

/-- `Parser._and`. -/
def andP : Nat → PM Expr
  | 0 => fun _ => none
  | n + 1 => do
    let e ← equality n
    andLoop n e

/-- The `and` operator loop. -/
def andLoop : Nat → Expr → PM Expr
  | 0, _ => fun _ => none
  | n + 1, e => do
    if ← matchT [.AND] then do
      let operator ← previous
      let right ← equality n
      andLoop n (Expr.logical e operator right)
    else
      pure e

/-- `Parser._equality`. -/
def equality : Nat → PM Expr
  | 0 => fun _ => none
  | n + 1 => do
    let e ← comparison n
    equalityLoop n e

/-- The `!=`/`==` operator loop. -/
def equalityLoop : Nat → Expr → PM Expr
  | 0, _ => fun _ => none
  | n + 1, e => do
    if ← matchT [.BANG_EQUAL, .EQUAL_EQUAL] then do
      let operator ← previous
      let right ← comparison n
      equalityLoop n (Expr.binary e operator right)
    else
      pure e

/-- `Parser._comparison`. -/
def comparison : Nat → PM Expr
  | 0 => fun _ => none
  | n + 1 => do
    let e ← term n
    comparisonLoop n e

/-- The comparison operator loop. -/
def comparisonLoop : Nat → Expr → PM Expr
  | 0, _ => fun _ => none
  | n + 1, e => do
    if ← matchT [.GREATER, .GREATER_EQUAL, .LESS, .LESS_EQUAL] then do
      let operator ← previous
      let right ← term n
      comparisonLoop n (Expr.binary e operator right)
    else
      pure e

/-- `Parser._term`. -/
def term : Nat → PM Expr
  | 0 => fun _ => none
  | n + 1 => do
    let e ← factor n
    termLoop n e

/-- The `-`/`+` operator loop. -/
def termLoop : Nat → Expr → PM Expr
  | 0, _ => fun _ => none
  | n + 1, e => do
    if ← matchT [.MINUS, .PLUS] then do
      let operator ← previous
      let right ← factor n
      termLoop n (Expr.binary e operator right)
    else
      pure e

/-- `Parser._factor`. -/
def factor : Nat → PM Expr
  | 0 => fun _ => none
  | n + 1 => do
    let e ← unary n
    factorLoop n e

/-- The `/`/`*` operator loop. -/
def factorLoop : Nat → Expr → PM Expr
  | 0, _ => fun _ => none
  | n + 1, e => do
    if ← matchT [.SLASH, .STAR] then do
      let operator ← previous
      let right ← unary n
      factorLoop n (Expr.binary e operator right)
    else
      pure e

/-- `Parser._unary`. -/
def unary : Nat → PM Expr
  | 0 => fun _ => none
  | n + 1 => do
    if ← matchT [.BANG, .MINUS] then do
      let operator ← previous
      let right ← unary n
      pure (Expr.unary operator right)
    else
      callP n

/-- `Parser._call`. -/
def callP : Nat → PM Expr
  | 0 => fun _ => none
  | n + 1 => do
    let e ← primary n
    callLoop n e

/-- The call/property suffix loop of `_call`. -/
def callLoop : Nat → Expr → PM Expr
  | 0, _ => fun _ => none
  | n + 1, e => do
    if ← matchT [.LEFT_PAREN] then do
      let e' ← finishCall n e
      callLoop n e'
    else if ← matchT [.DOT] then do
      let name ← consume .IDENTIFIER "Expect property name after \x27.\x27."
      callLoop n (Expr.get e name)
    else
      pure e

/-- `Parser._finish_call`. -/
def finishCall : Nat → Expr → PM Expr
  | 0, _ => fun _ => none
  | n + 1, callee => do
    let arguments ← (do
      if !(← check .RIGHT_PAREN) then do
        let a ← expression n
        argsLoop n [a]
      else
        pure [])
    let paren ← consume .RIGHT_PAREN "Expect \x27)\x27 after arguments."
    pure (Expr.call callee paren arguments)

/-- The comma-separated argument loop of `_finish_call`; at 255 or more
arguments the error is reported but parsing continues. -/
def argsLoop : Nat → List Expr → PM (List Expr)
  | 0, _ => fun _ => none
  | n + 1, acc => do
    if ← matchT [.COMMA] then do
      if acc.length ≥ 255 then do
        let t ← peek
        errorReport t "Can\x27t have more than 255 arguments."
      let a ← expression n
      argsLoop n (acc ++ [a])
    else
      pure acc

/-- `Parser._primary`. -/
def primary : Nat → PM Expr
  | 0 => fun _ => none
  | n + 1 => do
    if ← matchT [.FALSE] then pure (Expr.literal (.lbool false))
    else if ← matchT [.TRUE] then pure (Expr.literal (.lbool true))
    else if ← matchT [.NIL] then pure (Expr.literal .lnil)
    else if ← matchT [.NUMBER, .STRING] then do
      let t ← previous
      pure (Expr.literal (litOfToken t))
    else if ← matchT [.SUPER] then do
      let keyword ← previous
      let _ ← consume .DOT "Expect \x27.\x27 after \x27super\x27."
      let method ← consume .IDENTIFIER "Expect superclass method name."
      let id_ ← freshId
      pure (Expr.superE id_ keyword method)
    else if ← matchT [.LEFT_PAREN] then do
      let e ← expression n
      let _ ← consume .RIGHT_PAREN "Expect \x27)\x27 after expression"
      pure (Expr.grouping e)
    else if ← matchT [.LEFT_BRACKET] then do
      let items ← finishListInitializer n
      pure (Expr.listInitializer items)
    else if ← matchT [.THIS] then do
      let t ← previous
      let id_ ← freshId
      pure (Expr.this id_ t)
    else if ← matchT [.IDENTIFIER] then do
      let t ← previous
      let id_ ← freshId
      pure (Expr.variable id_ t)
    else do
      let t ← peek
      errorThrow t "Expect expression."

/-- `Parser._finish_list_initializer`. -/
def finishListInitializer : Nat → PM (List Expr)
  | 0 => fun _ => none
  | n + 1 => do
    let items ← (do
      if !(← check .RIGHT_BRACKET) then do
        let e ← expression n
        listItemsLoop n [e]
      else
        pure [])
    let _ ← consume .RIGHT_BRACKET "Expect \x27]\x27 after list initializer."
    pure items

/-- The comma-separated item loop of `_finish_list_initializer`. -/
def listItemsLoop : Nat → List Expr → PM (List Expr)
  | 0, _ => fun _ => none
  | n + 1, acc => do
    if ← matchT [.COMMA] then do
      let e ← expression n
      listItemsLoop n (acc ++ [e])
    else
      pure acc

/-- `Parser.parse`: append `_declaration()` results (dropped or not) until
`EOF`. -/
def parse : Nat → PM (List (Option Stmt))
  | 0 => fun _ => none
  | n + 1 => do
    if ← isAtEnd then
      pure []
    else do
      let d ← declaration n
      let rest ← parse n
      pure (d :: rest)

end

/-! ### Stepping lemmas for `PM` computations -/

/-- Bind propagates fuel exhaustion. -/
theorem pm_bind_none {α β : Type} {m : PM α} {s : ParserState} {f : α → PM β}
    (h : m s = none) : (m >>= f) s = none := by
  show pmBind m f s = none
  unfold pmBind
  rw [h]

/-- Bind propagates exceptions. -/
theorem pm_bind_err {α β : Type} {m : PM α} {s s' : ParserState} {e : PError}
    {f : α → PM β} (h : m s = some (.error e, s')) :
    (m >>= f) s = some (.error e, s') := by
  show pmBind m f s = some (.error e, s')
  unfold pmBind
  rw [h]

/-- Bind steps through a successful computation. -/
theorem pm_bind_ok {α β : Type} {m : PM α} {s s' : ParserState} {a : α}
    {f : α → PM β} (h : m s = some (.ok a, s')) : (m >>= f) s = f a s' := by
  show pmBind m f s = f a s'
  unfold pmBind
  rw [h]

/-- The `try/except ParseError` propagates fuel exhaustion. -/
theorem pm_catch_none {α : Type} {m : PM α} {s : ParserState} {h : PM α}
    (hm : m s = none) : pmCatchParseError m h s = none := by
  unfold pmCatchParseError
  rw [hm]

/-- The `try/except ParseError` runs the handler on `ParseError`. -/
theorem pm_catch_parse {α : Type} {m : PM α} {s s' : ParserState} {h : PM α}
    (hm : m s = some (.error .parseError, s')) :
    pmCatchParseError m h s = h s' := by
  unfold pmCatchParseError
  rw [hm]

/-! ### Behavior of the parser on the token stream of the source text `";"`

`_declaration` reaches `_primary`, which raises `ParseError` without having
advanced the cursor; `_synchronize` discards nothing, so `parse` re-enters
`_declaration` in an identical position forever. -/

/-- The token stream of the one-character source `";"`. -/
def semiTok : Token := ⟨.SEMICOLON, ";", none, 1⟩

/-- The terminating `EOF` token on line 1. -/
def eofTok : Token := ⟨.EOF, "", none, 1⟩

/-- The single token of the source `"("`. -/
def lparenTok : Token := ⟨.LEFT_PAREN, "(", none, 1⟩

/-- Parser states whose cursor sits on the `";"` of the stream `[";", EOF]`;
`errs`, `printed` and `ids` are whatever has accumulated so far. -/
def semiState (errs : List (Token × String)) (printed : List String) (ids : Nat) :
    ParserState :=
  ⟨[semiTok, eofTok], 0, errs, printed, ids⟩

/-- The error `_primary` reports on that state. -/
def semiErr : Token × String := (semiTok, "Expect expression.")

/-- `_primary` on the `";"` state: no alternative matches, so it reports
"Expect expression." and raises, advancing nothing. -/
theorem primary_semi (n : Nat) (errs : List (Token × String)) (printed : List String)
    (ids : Nat) :
    primary n (semiState errs printed ids) = none ∨
    primary n (semiState errs printed ids) =
      some (.error .parseError, semiState (errs ++ [semiErr]) printed ids) := by
  match n with
  | 0 => exact Or.inl rfl
  | _ + 1 => exact Or.inr rfl

/-- `_call` on the `";"` state: fails inside `_primary`. -/
theorem callP_semi (n : Nat) (errs : List (Token × String)) (printed : List String)
    (ids : Nat) :
    callP n (semiState errs printed ids) = none ∨
    callP n (semiState errs printed ids) =
      some (.error .parseError, semiState (errs ++ [semiErr]) printed ids) := by
  match n with
  | 0 => exact Or.inl rfl
  | n + 1 =>
    rcases primary_semi n errs printed ids with h | h
    · exact Or.inl (by simp only [callP]; exact pm_bind_none h)
    · exact Or.inr (by simp only [callP]; exact pm_bind_err h)

/-- `_unary` on the `";"` state: neither `!` nor `-` matches. -/
theorem unary_semi (n : Nat) (errs : List (Token × String)) (printed : List String)
    (ids : Nat) :
    unary n (semiState errs printed ids) = none ∨
    unary n (semiState errs printed ids) =
      some (.error .parseError, semiState (errs ++ [semiErr]) printed ids) := by
  match n with
  | 0 => exact Or.inl rfl
  | n + 1 =>
    have hm : matchT [.BANG, .MINUS] (semiState errs printed ids) =
        some (.ok false, semiState errs printed ids) := rfl
    rcases callP_semi n errs printed ids with h | h
    · refine Or.inl ?_
      simp only [unary]
      rw [pm_bind_ok hm]
      exact h
    · refine Or.inr ?_
      simp only [unary]
      rw [pm_bind_ok hm]
      exact h

/-- `_factor` on the `";"` state. -/
theorem factor_semi (n : Nat) (errs : List (Token × String)) (printed : List String)
    (ids : Nat) :
    factor n (semiState errs printed ids) = none ∨
    factor n (semiState errs printed ids) =
      some (.error .parseError, semiState (errs ++ [semiErr]) printed ids) := by
  match n with
  | 0 => exact Or.inl rfl
  | n + 1 =>
    rcases unary_semi n errs printed ids with h | h
    · exact Or.inl (by simp only [factor]; exact pm_bind_none h)
    · exact Or.inr (by simp only [factor]; exact pm_bind_err h)

/-- `_term` on the `";"` state. -/
theorem term_semi (n : Nat) (errs : List (Token × String)) (printed : List String)
    (ids : Nat) :
    term n (semiState errs printed ids) = none ∨
    term n (semiState errs printed ids) =
      some (.error .parseError, semiState (errs ++ [semiErr]) printed ids) := by
  match n with
  | 0 => exact Or.inl rfl
  | n + 1 =>
    rcases factor_semi n errs printed ids with h | h
    · exact Or.inl (by simp only [term]; exact pm_bind_none h)
    · exact Or.inr (by simp only [term]; exact pm_bind_err h)

/-- `_comparison` on the `";"` state. -/
theorem comparison_semi (n : Nat) (errs : List (Token × String))
    (printed : List String) (ids : Nat) :
    comparison n (semiState errs printed ids) = none ∨
    comparison n (semiState errs printed ids) =
      some (.error .parseError, semiState (errs ++ [semiErr]) printed ids) := by
  match n with
  | 0 => exact Or.inl rfl
  | n + 1 =>
    rcases term_semi n errs printed ids with h | h
    · exact Or.inl (by simp only [comparison]; exact pm_bind_none h)
    · exact Or.inr (by simp only [comparison]; exact pm_bind_err h)

/-- `_equality` on the `";"` state. -/
theorem equality_semi (n : Nat) (errs : List (Token × String))
    (printed : List String) (ids : Nat) :
    equality n (semiState errs printed ids) = none ∨
    equality n (semiState errs printed ids) =
      some (.error .parseError, semiState (errs ++ [semiErr]) printed ids) := by
  match n with
  | 0 => exact Or.inl rfl
  | n + 1 =>
    rcases comparison_semi n errs printed ids with h | h
    · exact Or.inl (by simp only [equality]; exact pm_bind_none h)
    · exact Or.inr (by simp only [equality]; exact pm_bind_err h)

/-- `_and` on the `";"` state. -/
theorem andP_semi (n : Nat) (errs : List (Token × String)) (printed : List String)
    (ids : Nat) :
    andP n (semiState errs printed ids) = none ∨
    andP n (semiState errs printed ids) =
      some (.error .parseError, semiState (errs ++ [semiErr]) printed ids) := by
  match n with
  | 0 => exact Or.inl rfl
  | n + 1 =>
    rcases equality_semi n errs printed ids with h | h
    · exact Or.inl (by simp only [andP]; exact pm_bind_none h)
    · exact Or.inr (by simp only [andP]; exact pm_bind_err h)

/-- `_or` on the `";"` state. -/
theorem orP_semi (n : Nat) (errs : List (Token × String)) (printed : List String)
    (ids : Nat) :
    orP n (semiState errs printed ids) = none ∨
    orP n (semiState errs printed ids) =
      some (.error .parseError, semiState (errs ++ [semiErr]) printed ids) := by
  match n with
  | 0 => exact Or.inl rfl
  | n + 1 =>
    rcases andP_semi n errs printed ids with h | h
    · exact Or.inl (by simp only [orP]; exact pm_bind_none h)
    · exact Or.inr (by simp only [orP]; exact pm_bind_err h)

/-- `_assignment` on the `";"` state. -/
theorem assignment_semi (n : Nat) (errs : List (Token × String))
    (printed : List String) (ids : Nat) :
    assignment n (semiState errs printed ids) = none ∨
    assignment n (semiState errs printed ids) =
      some (.error .parseError, semiState (errs ++ [semiErr]) printed ids) := by
  match n with
  | 0 => exact Or.inl rfl
  | n + 1 =>
    rcases orP_semi n errs printed ids with h | h
    · exact Or.inl (by simp only [assignment]; exact pm_bind_none h)
    · exact Or.inr (by simp only [assignment]; exact pm_bind_err h)

/-- `_expression` on the `";"` state. -/
theorem expression_semi (n : Nat) (errs : List (Token × String))
    (printed : List String) (ids : Nat) :
    expression n (semiState errs printed ids) = none ∨
    expression n (semiState errs printed ids) =
      some (.error .parseError, semiState (errs ++ [semiErr]) printed ids) := by
  match n with
  | 0 => exact Or.inl rfl
  | n + 1 => exact assignment_semi n errs printed ids

/-- `_expression_statement` on the `";"` state. -/
theorem expressionStatement_semi (n : Nat) (errs : List (Token × String))
    (printed : List String) (ids : Nat) :
    expressionStatement n (semiState errs printed ids) = none ∨
    expressionStatement n (semiState errs printed ids) =
      some (.error .parseError, semiState (errs ++ [semiErr]) printed ids) := by
  match n with
  | 0 => exact Or.inl rfl
  | n + 1 =>
    rcases expression_semi n errs printed ids with h | h
    · exact Or.inl (by simp only [expressionStatement]; exact pm_bind_none h)
    · exact Or.inr (by simp only [expressionStatement]; exact pm_bind_err h)

/-- `Parser._statement` on the `";"` state: no statement keyword matches, so
it falls through to `_expression_statement`. -/
theorem statement_semi (n : Nat) (errs : List (Token × String))
    (printed : List String) (ids : Nat) :
    statement n (semiState errs printed ids) = none ∨
    statement n (semiState errs printed ids) =
      some (.error .parseError, semiState (errs ++ [semiErr]) printed ids) := by
  match n with
  | 0 => exact Or.inl rfl
  | n + 1 =>
    rcases expressionStatement_semi n errs printed ids with h | h
    · exact Or.inl h
    · exact Or.inr h

/-- `_declaration` on the `";"` state: the `ParseError` from `_primary` is
caught, `_synchronize` prints `"SYNC"` and discards nothing, and `None` is
returned with the cursor exactly where it started. -/
theorem declaration_semi (n : Nat) (errs : List (Token × String))
    (printed : List String) (ids : Nat) :
    declaration n (semiState errs printed ids) = none ∨
    declaration n (semiState errs printed ids) =
      some (.ok none,
        semiState (errs ++ [semiErr]) (printed ++ ["SYNC"]) ids) := by
  match n with
  | 0 => exact Or.inl rfl
  | n + 1 =>
    have e1 : matchT [.CLASS] (semiState errs printed ids) =
        some (.ok false, semiState errs printed ids) := rfl
    have e2 : matchT [.FUN] (semiState errs printed ids) =
        some (.ok false, semiState errs printed ids) := rfl
    have e3 : matchT [.VAR] (semiState errs printed ids) =
        some (.ok false, semiState errs printed ids) := rfl
    rcases statement_semi n errs printed ids with h | h
    · exact Or.inl (pm_catch_none ((pm_bind_ok e1).trans ((pm_bind_ok e2).trans
        ((pm_bind_ok e3).trans (pm_bind_none h)))))
    · refine Or.inr ((@pm_catch_parse _ _ _
          (semiState (errs ++ [semiErr]) printed ids) _ ?_).trans ?_)
      · exact (pm_bind_ok e1).trans ((pm_bind_ok e2).trans
          ((pm_bind_ok e3).trans (pm_bind_err h)))
      · rfl

/-- `Parser.parse` on the `";"` stream never terminates: every fuel bound is
exhausted, because each loop iteration returns to the same cursor
position. -/
theorem parse_semi (n : Nat) : ∀ (errs : List (Token × String))
    (printed : List String) (ids : Nat),
    parse n (semiState errs printed ids) = none := by
  induction n with
  | zero => intro errs printed ids; rfl
  | succ n ih =>
    intro errs printed ids
    have e0 : isAtEnd (semiState errs printed ids) =
        some (.ok false, semiState errs printed ids) := rfl
    rcases declaration_semi n errs printed ids with h | h
    · exact (pm_bind_ok e0).trans (pm_bind_none h)
    · exact (pm_bind_ok e0).trans ((pm_bind_ok h).trans
        (pm_bind_none (ih (errs ++ [semiErr]) (printed ++ ["SYNC"]) ids)))

/-- C2: the claim says that on a syntax error the parser discards tokens up
to a synchronization point and drops the failed declaration from the
returned list.  In the source, `_synchronize` only prints `"SYNC"` and
discards nothing (first conjunct, for every parser state), and `parse`
returns the failed declaration as a `None` entry in its result list: on the
token stream of the source `"("` it returns `[None]` with the cursor having
consumed only the `(` (second conjunct). -/
theorem synchronize_is_stub_and_failed_declaration_kept :
    (∀ s : ParserState, synchronize s =
      some (.ok (), { s with printed := s.printed ++ ["SYNC"] })) ∧
    parse 33 ⟨[lparenTok, eofTok], 0, [], [], 0⟩ =
      some (.ok [none],
        ⟨[lparenTok, eofTok], 1, [(eofTok, "Expect expression.")], ["SYNC"], 0⟩) :=
  ⟨fun _ => rfl, by set_option maxHeartbeats 2000000 in exact rfl⟩

/-- C3: the claim says `Parser.parse` terminates on every finite token list
ending in `EOF`, including erroneous inputs.  It does not: on the token
stream of the source `";"` (a lone semicolon), `_primary` raises without
consuming a token, `_synchronize` discards nothing, and the `parse` loop
repeats the identical failing iteration forever — the embedding returns
`none` (still running) for every fuel bound. -/
theorem parse_does_not_terminate_on_lone_semicolon :
    ∀ n : Nat, parse n (semiState [] [] 0) = none :=
  fun n => parse_semi n [] [] 0

/-! ## Resolver (`plox/resolving.py`) -/

/-- Python `dict` insertion: overwrite in place if the key exists, append
otherwise. -/
def dictInsert {κ α : Type} [DecidableEq κ] : List (κ × α) → κ → α → List (κ × α)
  | [], k, v => [(k, v)]
  | (k', v') :: rest, k, v =>
    if k' = k then (k, v) :: rest else (k', v') :: dictInsert rest k v

/-- `resolving._FunctionType`. -/
inductive FunctionType where
  | NONE | FUNCTION | INITIALIZER | METHOD
deriving DecidableEq, Repr

/-- `resolving._ClassType`. -/
inductive ClassType where
  | NONE | CLASS | SUBCLASS
deriving DecidableEq, Repr

/-- Exceptions escaping the resolver walk:

* `typeErrorOneArgCallback` — the Python `TypeError` raised when
  `resolving.py` line 117 invokes the two-parameter error callback with a
  single argument (`self._error_callback("A class can\x27t inherit from
  itself.")`);
* `dispatchError` — visiting a `None` statement or a `ListInitializer`
  expression, for which `resolving.py` registers no visitor (the `visitor`
  module is not under `src/`; modelled as a dispatch failure);
* `pyIndexError` — `self._scopes[-1]` on an empty scope stack;
* `outOfFuel` — not a Python exception: the embedding artifact marking that
  the fuel bound was reached (the resolver walk itself is structural and
  always terminates, so adequate fuel makes this unreachable). -/
inductive RErr where
  | typeErrorOneArgCallback
  | dispatchError
  | pyIndexError
  | outOfFuel
deriving DecidableEq, Repr

/-- Resolver state: the scope stack (innermost scope first — Python keeps it
last), the errors reported through the two-argument callback, the
interpreter side table filled through `Interpreter.resolve`, and the two
state-machine fields. -/
structure RState where
  scopes : List (List (String × Bool))
  errors : List (Token × String)
  locals : List (Nat × Nat)
  currentFunction : FunctionType
  currentClass : ClassType
deriving Repr

/-- Resolver computations: state plus in-flight Python exceptions. -/
def RM (α : Type) : Type := RState → Except RErr α × RState

/-- Monadic return for `RM`. -/
def rmPure {α : Type} (a : α) : RM α := fun s => (.ok a, s)

/-- Monadic bind for `RM`: exceptions short-circuit but the state at the
raise survives. -/
def rmBind {α β : Type} (m : RM α) (f : α → RM β) : RM β := fun s =>
  match m s with
  | (.error e, s') => (.error e, s')
  | (.ok a, s') => f a s'

instance : Monad RM where
  pure := rmPure
  bind := rmBind

/-- Read the resolver state. -/
def getR : RM RState := fun s => (.ok s, s)

/-- Replace the resolver state. -/
def setR (s' : RState) : RM Unit := fun _ => (.ok (), s')

/-- Raise a Python exception out of the resolver walk. -/
def throwR {α : Type} (e : RErr) : RM α := fun s => (.error e, s)

/-- The resolver's two-argument error callback (`Application._error2`). -/
def reportR (token : Token) (message : String) : RM Unit := fun s =>
  (.ok (), { s with errors := s.errors ++ [(token, message)] })

/-- `Resolver._begin_scope`. -/
def beginScope : RM Unit := do
  let s ← getR
  setR { s with scopes := [] :: s.scopes }

/-- `Resolver._end_scope` (`del self._scopes[-1]`). -/
def endScope : RM Unit := do
  let s ← getR
  match s.scopes with
  | [] => throwR .pyIndexError
  | _ :: rest => setR { s with scopes := rest }

/-- `Resolver._declare`: no-op outside any scope; duplicate names in the
innermost scope are reported; the name is recorded as not yet defined. -/
def declare (name : Token) : RM Unit := do
  let s ← getR
  match s.scopes with
  | [] => pure ()
  | scope :: _ => do
    if (scope.lookup name.lexeme).isSome then
      reportR name "Already a variable with this name in this scope."
    let s' ← getR
    match s'.scopes with
    | [] => throwR .pyIndexError
    | scope' :: rest' =>
      setR { s' with scopes := dictInsert scope' name.lexeme false :: rest' }

/-- `Resolver._define`. -/
def defineR (name : Token) : RM Unit := do
  let s ← getR
  match s.scopes with
  | [] => pure ()
  | scope :: rest =>
    setR { s with scopes := dictInsert scope name.lexeme true :: rest }

/-- Depth (0 = innermost) of the first scope containing `lexeme`, as
`_resolve_local` computes it via `len(self._scopes) - 1 - i`. -/
def scopeDepthOf : List (List (String × Bool)) → String → Option Nat
  | [], _ => none
  | scope :: rest, lexeme =>
    if (scope.lookup lexeme).isSome then some 0
    else (scopeDepthOf rest lexeme).map (· + 1)

/-- `Resolver._resolve_local`: record the depth of the innermost scope
containing the name in the interpreter side table (`Interpreter.resolve`);
record nothing when no scope contains it. -/
def resolveLocal (eid : Nat) (name : Token) : RM Unit := do
  let s ← getR
  match scopeDepthOf s.scopes name.lexeme with
  | some d => setR { s with locals := dictInsert s.locals eid d }
  | none => pure ()

/-- Write `self._scopes[-1][key] = True` (used for `super` and `this`). -/
def setInnermost (key : String) : RM Unit := do
  let s ← getR
  match s.scopes with
  | [] => throwR .pyIndexError
  | scope :: rest =>
    setR { s with scopes := dictInsert scope key true :: rest }

/-- `_declare` and `_define` for each function parameter in order. -/
def declareParams : List Token → RM Unit
  | [] => pure ()
  | p :: rest => do
    declare p
    defineR p
    declareParams rest

/-- The recursive interface of the `Resolver` visitor family: one entry per
visitor/loop, so that the fuel-indexed family below can tie the recursion
one level at a time. -/
structure ResolveRec where
  stmt : Stmt → RM Unit
  stmts : List (Option Stmt) → RM Unit
  expr : Expr → RM Unit
  exprs : List Expr → RM Unit
  methods : List FunctionDecl → RM Unit
  func : FunctionDecl → FunctionType → RM Unit

/-- The `Resolver.resolve` visitor on a single statement; recursive calls go
through `r`. -/
def resolveStmtF (r : ResolveRec) : Stmt → RM Unit
  | .block statements => do
    beginScope
    r.stmts statements
    endScope
  | .var name initializer => do
    declare name
    match initializer with
    | some init => r.expr init
    | none => pure ()
    defineR name
  | .function decl => do
    declare decl.name
    defineR decl.name
    r.func decl .FUNCTION
  | .expression e => r.expr e
  | .ifS condition thenBranch elseBranch => do
    r.expr condition
    r.stmt thenBranch
    match elseBranch with
    | some e => r.stmt e
    | none => pure ()
  | .print e => r.expr e
  | .ret keyword value => do
    let s ← getR
    if s.currentFunction = .NONE then
      reportR keyword "Can\x27t return from top-level code."
    match value with
    | some v => do
      let s' ← getR
      if s'.currentFunction = .INITIALIZER then
        reportR keyword "Can\x27t return a value from an initializer."
      r.expr v
    | none => pure ()
  | .whileS condition body => do
    r.expr condition
    r.stmt body
  | .classS name superclass methods => do
    let s ← getR
    let enclosingClass := s.currentClass
    setR { s with currentClass := .CLASS }
    declare name
    defineR name
    match superclass with
    | some sv =>
      if name.lexeme = sv.name.lexeme then
        -- `self._error_callback("A class can\x27t inherit from itself.")`:
        -- the callback takes (token, message); this one-argument call
        -- raises `TypeError` before anything is reported.
        throwR .typeErrorOneArgCallback
      else pure ()
    | none => pure ()
    match superclass with
    | some sv => do
      let s' ← getR
      setR { s' with currentClass := .SUBCLASS }
      r.expr (Expr.variable sv.eid sv.name)
    | none => pure ()
    match superclass with
    | some _ => do
      beginScope
      setInnermost "super"
    | none => pure ()
    beginScope
    setInnermost "this"
    r.methods methods
    endScope
    match superclass with
    | some _ => endScope
    | none => pure ()
    let s'' ← getR
    setR { s'' with currentClass := enclosingClass }

/-- The `Resolver.resolve` visitor on a statement list (`@visitor(list)`);
a `None` entry has no registered visitor. -/
def resolveStmtsF (r : ResolveRec) : List (Option Stmt) → RM Unit
  | [] => pure ()
  | some st :: rest => do
    r.stmt st
    r.stmts rest
  | none :: _ => throwR .dispatchError

/-- The `Resolver.resolve` visitor on a single expression. -/
def resolveExprF (r : ResolveRec) : Expr → RM Unit
  | .variable eid name => do
    let s ← getR
    match s.scopes with
    | scope :: _ =>
      if scope.lookup name.lexeme = some false then do
        reportR name "Can\x27t read local variable in its own initializer."
        resolveLocal eid name
      else
        resolveLocal eid name
    | [] => resolveLocal eid name
  | .assign eid name value => do
    r.expr value
    resolveLocal eid name
  | .binary left _ right => do
    r.expr left
    r.expr right
  | .call callee _ arguments => do
    r.expr callee
    r.exprs arguments
  | .grouping inner => r.expr inner
  | .literal _ => pure ()
  | .logical left _ right => do
    r.expr left
    r.expr right
  | .unary _ right => r.expr right
  | .get object_ _ => r.expr object_
  | .set object_ _ value => do
    r.expr value
    r.expr object_
  | .this eid keyword => do
    let s ← getR
    if s.currentClass = .NONE then
      reportR keyword "Can\x27t use \x27this\x27 outside of a class."
    else
      resolveLocal eid keyword
  | .superE eid keyword _ => do
    let s ← getR
    if s.currentClass = .NONE then
      reportR keyword "Can\x27t use \x27super\x27 outside of a class."
    else if s.currentClass ≠ .SUBCLASS then
      reportR keyword "Can\x27t use \x27super\x27 in a class with no superclass."
    resolveLocal eid keyword
  | .listInitializer _ => throwR .dispatchError

/-- The argument loop of the `Call` visitor. -/
def resolveExprsF (r : ResolveRec) : List Expr → RM Unit
  | [] => pure ()
  | e :: rest => do
    r.expr e
    r.exprs rest

/-- The method loop of the `Class` visitor: methods named exactly `init`
resolve as `INITIALIZER`, all others as `METHOD`. -/
def resolveMethodsF (r : ResolveRec) : List FunctionDecl → RM Unit
  | [] => pure ()
  | method :: rest => do
    r.func method
      (if method.name.lexeme = "init" then .INITIALIZER else .METHOD)
    r.methods rest

/-- `Resolver._resolve_function`. -/
def resolveFunctionF (r : ResolveRec) (function : FunctionDecl)
    (type_ : FunctionType) : RM Unit := do
  let s ← getR
  let enclosingFunction := s.currentFunction
  setR { s with currentFunction := type_ }
  beginScope
  declareParams function.params
  r.stmts function.body
  endScope
  let s' ← getR
  setR { s' with currentFunction := enclosingFunction }

/-- Everything fails with the fuel-exhaustion marker. -/
def resolveOutOfFuel : ResolveRec :=
  ⟨fun _ => throwR .outOfFuel, fun _ => throwR .outOfFuel,
   fun _ => throwR .outOfFuel, fun _ => throwR .outOfFuel,
   fun _ => throwR .outOfFuel, fun _ _ => throwR .outOfFuel⟩

/-- One level of the resolver family. -/
def resolveStep (r : ResolveRec) : ResolveRec :=
  ⟨resolveStmtF r, resolveStmtsF r, resolveExprF r,
   resolveExprsF r, resolveMethodsF r, resolveFunctionF r⟩

/-- The resolver family at a given fuel bound. -/
def resolveAt : Nat → ResolveRec
  | 0 => resolveOutOfFuel
  | n + 1 => resolveStep (resolveAt n)

/-- Fuel-indexed `Resolver.resolve` on a statement. -/
def resolveStmt (n : Nat) : Stmt → RM Unit := (resolveAt n).stmt

/-- Fuel-indexed `Resolver.resolve` on a statement list (as `Application.run`
invokes it on the parser output). -/
def resolveStmts (n : Nat) : List (Option Stmt) → RM Unit := (resolveAt n).stmts

/-- Fuel-indexed `Resolver.resolve` on an expression. -/
def resolveExpr (n : Nat) : Expr → RM Unit := (resolveAt n).expr

/-! ## Interpreter runtime (`plox/interpreting.py`, `plox/environments.py`)

The `list`/`listIterator` classes and the `AnonymousLoxFunction` wrapper of
`standard_library.py` back the optional list type; no claim settled here
touches them, and they are not embedded (evaluating a `ListInitializer`
crashes on the missing `Environment.get_by_name` anyway, see
`evaluateF`). -/

/-- A `LoxFunction` value: the declaration, the closure frame id, the
`is_initializer` flag, and a fresh id modelling Python object identity. -/
structure LoxFunctionV where
  declaration : FunctionDecl
  closure : Nat
  isInitializer : Bool
  fid : Nat

/-- A `LoxClass` value: name, optional superclass, method dictionary, and a
fresh id modelling Python object identity. -/
inductive LoxClassV where
  | mk (name : String) (superclass : Option LoxClassV)
      (methods : List (String × LoxFunctionV)) (cid : Nat)

/-- Name of a class value. -/
def LoxClassV.name : LoxClassV → String
  | .mk n _ _ _ => n

/-- Superclass of a class value. -/
def LoxClassV.superclass : LoxClassV → Option LoxClassV
  | .mk _ s _ _ => s

/-- Method dictionary of a class value. -/
def LoxClassV.methods : LoxClassV → List (String × LoxFunctionV)
  | .mk _ _ m _ => m

/-- Identity of a class value. -/
def LoxClassV.cid : LoxClassV → Nat
  | .mk _ _ _ c => c

/-- The ten `AnonymousCallable` built-ins registered by
`standard_library._functions`; each is constructed exactly once, so the tag
doubles as the object's identity. -/
inductive BuiltinTag where
  | clock | input | str | float | floor | ceil | sin | cos | exp | log
deriving DecidableEq, Repr

/-- Lox runtime values: `None`, `bool`, `float`, `str`, `LoxFunction`,
`AnonymousCallable`, `LoxClass` or `LoxInstance` (a reference into the
instance store). -/
inductive Value where
  | vnil
  | vbool (b : Bool)
  | vnum (q : ℚ)
  | vstr (s : String)
  | vfunc (f : LoxFunctionV)
  | vbuiltin (tag : BuiltinTag)
  | vclass (c : LoxClassV)
  | vinstance (ref : Nat)

/-- An `Environment` frame: its `_values` dict and `_enclosing` pointer. -/
structure Frame where
  values : List (String × Value)
  enclosing : Option Nat

/-- A `LoxInstance`: its class and `_fields` dict (the `metafields` dict is
only touched by the unembedded list built-ins). -/
structure InstanceData where
  classv : LoxClassV
  fields : List (String × Value)

/-- Exceptions in flight during interpretation:

* `plox` — `PloxRuntimeError` (token and message);
* `ret` — the `Return` unwinding exception;
* `pyValueError` — `ValueError`, as raised by `standard_library._to_str` and
  friends on a wrongly-typed argument;
* `pyZeroDivisionError` — Python float division by zero;
* `pyAttributeError`, `pyKeyError`, `pyIndexError`, `notImplementedError` —
  the corresponding Python exceptions (`notImplementedError` is what the
  `singledispatchmethod` base raises on an unregistered node such as a
  `None` statement);
* `hostOpaque` — a call into a host-backed built-in (`clock`, `input`,
  `sin`, ...) whose result this embedding does not model;
* `badRef` — an embedding artifact: a dangling frame or instance reference,
  unreachable for states built by the embedding itself. -/
inductive Exc where
  | plox (token : Token) (message : String)
  | ret (value : Value)
  | pyValueError (message : String)
  | pyZeroDivisionError
  | pyAttributeError (message : String)
  | pyKeyError
  | pyIndexError
  | notImplementedError
  | hostOpaque (what : String)
  | badRef

/-- Interpreter state: the frame store (`Environment` objects by id), the
instance store, the id of the globals frame, the current `_environment`
pointer, the `_locals` side table (expression id → distance), the lines
printed so far, a counter for fresh object identities, and the runtime
errors reported through the error callback. -/
structure IState where
  envs : List Frame
  instances : List InstanceData
  globalsId : Nat
  environment : Nat
  locals : List (Nat × Nat)
  output : List String
  nextObjId : Nat
  errlog : List (Token × String)

/-- Interpreter computations: state, in-flight exceptions, and an outer
`Option` that is `none` exactly when the fuel ran out (the interpreted
program may genuinely diverge). -/
def IM (α : Type) : Type := IState → Option (Except Exc α × IState)

/-- Monadic return for `IM`. -/
def imPure {α : Type} (a : α) : IM α := fun s => some (.ok a, s)

/-- Monadic bind for `IM`. -/
def imBind {α β : Type} (m : IM α) (f : α → IM β) : IM β := fun s =>
  match m s with
  | none => none
  | some (.error e, s') => some (.error e, s')
  | some (.ok a, s') => f a s'

instance : Monad IM where
  pure := imPure
  bind := imBind

/-- Read the interpreter state. -/
def getI : IM IState := fun s => some (.ok s, s)

/-- Replace the interpreter state. -/
def setI (s' : IState) : IM Unit := fun _ => some (.ok (), s')

/-- Raise an exception. -/
def throwI {α : Type} (e : Exc) : IM α := fun s => some (.error e, s)

/-- `Interpreter._is_truthy`: `None` and booleans aside, everything is
truthy. -/
def isTruthy : Value → Bool
  | .vnil => false
  | .vbool b => b
  | _ => true

/-- Python's numeric value of a `bool` (`True == 1.0` holds in Python). -/
def numOfBool (b : Bool) : ℚ := if b then 1 else 0

/-- Python `==` on the runtime representations the interpreter uses:
structural on `None`/`bool`/`float`/`str` — with `bool` participating in
numeric equality, since Lox booleans are Python `bool`s — and identity on
callables, classes and instances. -/
def pyEq : Value → Value → Bool
  | .vnil, .vnil => true
  | .vbool a, .vbool b => a == b
  | .vbool a, .vnum q => numOfBool a == q
  | .vnum q, .vbool a => q == numOfBool a
  | .vnum p, .vnum q => p == q
  | .vstr a, .vstr b => a == b
  | .vfunc f, .vfunc g => f.fid == g.fid
  | .vclass c, .vclass d => c.cid == d.cid
  | .vbuiltin a, .vbuiltin b => a == b
  | .vinstance i, .vinstance j => i == j
  | _, _ => false

/-- Python `str()` of a float; exact for integral values (the only numbers
the theorems below print), approximate rendering otherwise. -/
def pyFloatStr (q : ℚ) : String :=
  if q.den = 1 then toString q.num ++ ".0" else toString q

/-- `Interpreter._stringify` (instances need the store for their class
name; an `AnonymousCallable` falls back to Python's default `repr`, whose
memory address is not modelled). -/
def stringify (s : IState) : Value → String
  | .vnil => "nil"
  | .vnum q =>
    let text := pyFloatStr q
    if text.endsWith ".0" then text.dropRight 2 else text
  | .vbool b => if b then "True" else "False"
  | .vstr st => st
  | .vfunc f => "<fn " ++ f.declaration.name.lexeme ++ ">"
  | .vclass c => c.name
  | .vinstance ref =>
    match s.instances[ref]? with
    | some inst => inst.classv.name ++ " instance"
    | none => "<bad instance ref>"
  | .vbuiltin _ => "<AnonymousCallable object>"

/-- `LoxClass.find_method`: own dictionary first, then the superclass
chain. -/
def findMethod : LoxClassV → String → Option LoxFunctionV
  | .mk _ sup methods _, name =>
    match methods.lookup name with
    | some m => some m
    | none =>
      match sup with
      | some s => findMethod s name
      | none => none

/-- `LoxCallable.arity`: parameter count for user functions, the registered
arity for built-ins, `init`'s arity (or 0) for classes. -/
def builtinArity : BuiltinTag → Nat
  | .clock => 0
  | .input => 0
  | _ => 1

/-- Whether a value is a `LoxCallable` (`isinstance` check in the `Call`
evaluator). -/
def isCallable : Value → Bool
  | .vfunc _ => true
  | .vbuiltin _ => true
  | .vclass _ => true
  | _ => false

/-- `arity()` of a callable value. -/
def arityOf : Value → Nat
  | .vfunc f => f.declaration.params.length
  | .vbuiltin tag => builtinArity tag
  | .vclass c =>
    match findMethod c "init" with
    | some i => i.declaration.params.length
    | none => 0
  | _ => 0

/-- `Environment(enclosing)`: allocate a fresh frame, returning its id. -/
def newEnvironment (enclosing : Option Nat) : IM Nat := do
  let s ← getI
  let envId := s.envs.length
  setI { s with envs := s.envs ++ [⟨[], enclosing⟩] }
  pure envId

/-- `Environment.define` on the frame with the given id. -/
def frameDefine (envId : Nat) (name : String) (value : Value) : IM Unit := do
  let s ← getI
  match s.envs[envId]? with
  | some fr =>
    setI { s with
      envs := s.envs.set envId { fr with values := dictInsert fr.values name value } }
  | none => throwI .badRef

/-- `Environment._ancestor`: follow exactly `distance` enclosing links from
the given frame; running off the chain is the Python `AttributeError` on
`None`. -/
def ancestorFrom : Nat → Nat → IM Nat
  | 0, envId => pure envId
  | d + 1, envId => do
    let s ← getI
    match s.envs[envId]? with
    | none => throwI .badRef
    | some fr =>
      match fr.enclosing with
      | some e => ancestorFrom d e
      | none => throwI (.pyAttributeError "NoneType")

/-- `Environment.get_at` starting from a given frame: `_values.get(name)`
in the `distance`-th ancestor — an absent name yields `None`, i.e. nil. -/
def getAtFrom (startEnv distance : Nat) (name : String) : IM Value := do
  let e ← ancestorFrom distance startEnv
  let s ← getI
  match s.envs[e]? with
  | none => throwI .badRef
  | some fr => pure ((fr.values.lookup name).getD .vnil)

/-- `Environment.assign_at` starting from a given frame. -/
def assignAtFrom (startEnv distance : Nat) (name : Token) (value : Value) :
    IM Unit := do
  let e ← ancestorFrom distance startEnv
  frameDefine e name.lexeme value

/-- `LoxFunction.bind` / `AnonymousLoxFunction.bind`: extend the closure
with a frame defining `this` and return a fresh function object. -/
def bindF (f : LoxFunctionV) (instance_ : Value) : IM LoxFunctionV := do
  let envId ← newEnvironment (some f.closure)
  frameDefine envId "this" instance_
  let s ← getI
  let nf : LoxFunctionV := ⟨f.declaration, envId, f.isInitializer, s.nextObjId⟩
  setI { s with nextObjId := s.nextObjId + 1 }
  pure nf

/-- `LoxInstance.get`: fields first, then bound methods, else
"Undefined property". -/
def instanceGet (ref : Nat) (name : Token) : IM Value := do
  let s ← getI
  match s.instances[ref]? with
  | none => throwI .badRef
  | some inst =>
    match inst.fields.lookup name.lexeme with
    | some v => pure v
    | none =>
      match findMethod inst.classv name.lexeme with
      | some m => do
        let b ← bindF m (.vinstance ref)
        pure (.vfunc b)
      | none =>
        throwI (.plox name ("Undefined property \x27" ++ name.lexeme ++ "\x27."))

/-- `LoxInstance.set`: unconditional field write. -/
def instanceSet (ref : Nat) (name : Token) (value : Value) : IM Unit := do
  let s ← getI
  match s.instances[ref]? with
  | none => throwI .badRef
  | some inst =>
    setI { s with
      instances := s.instances.set ref
        { inst with fields := dictInsert inst.fields name.lexeme value } }

/-- `Interpreter._check_number_operand`: the operand must be a float. -/
def checkNumberOperand (operator : Token) : Value → IM ℚ
  | .vnum q => pure q
  | _ => throwI (.plox operator "Operand must be a number")

/-- `Interpreter._check_number_operands`: both operands must be floats. -/
def checkNumberOperands (operator : Token) : Value → Value → IM (ℚ × ℚ)
  | .vnum p, .vnum q => pure (p, q)
  | _, _ => throwI (.plox operator "Operands must be numbers")

/-- The message of the arity-mismatch `PloxRuntimeError` exactly as the
source spells it: the string literal on `interpreting.py` line 415 carries
no `f` prefix, so the braces are never interpolated. -/
def expectedArgumentsMessage : String :=
  "Expected \x7bfunction.arity()\x7d arguments but got \x7blen(arguments)\x7d."

/-- `AnonymousCallable.call` for each entry of
`standard_library._functions`.  The type checks and the `ValueError`s they
raise are modelled exactly; results that require the host (`clock`,
`input`, transcendental math, string-to-float parsing) are `hostOpaque`. -/
def builtinCall : BuiltinTag → List Value → IM Value
  | .str, a :: _ =>
    match a with
    | .vstr s => pure (.vstr s)
    | .vnum q => pure (.vstr (pyFloatStr q))
    | _ => throwI (.pyValueError
        "Built-in function \x27str\x27 expects arguments of type string or float.")
  | .float, a :: _ =>
    match a with
    | .vnum q => pure (.vnum q)
    | .vstr _ => throwI (.hostOpaque "float(string)")
    | _ => throwI (.pyValueError
        "Built-in function \x27float\x27 expects arguments of type string or float.")
  | .floor, a :: _ =>
    match a with
    | .vnum q => pure (.vnum (Int.floor q : ℤ))
    | _ => throwI (.pyValueError
        "Built-in function \x27floor\x27 expects arguments of type float.")
  | .ceil, a :: _ =>
    match a with
    | .vnum q => pure (.vnum (Int.ceil q : ℤ))
    | _ => throwI (.pyValueError
        "Built-in function \x27ceil\x27 expects arguments of type float.")
  | .sin, a :: _ =>
    match a with
    | .vnum _ => throwI (.hostOpaque "sin")
    | _ => throwI (.pyValueError
        "Built-in function \x27sin\x27 expects arguments of type float.")
  | .cos, a :: _ =>
    match a with
    | .vnum _ => throwI (.hostOpaque "cos")
    | _ => throwI (.pyValueError
        "Built-in function \x27cos\x27 expects arguments of type float.")
  | .exp, a :: _ =>
    match a with
    | .vnum _ => throwI (.hostOpaque "exp")
    | _ => throwI (.pyValueError
        "Built-in function \x27exp\x27 expects arguments of type float.")
  | .log, a :: _ =>
    match a with
    | .vnum _ => throwI (.hostOpaque "log")
    | _ => throwI (.pyValueError
        "Built-in function \x27log\x27 expects arguments of type float.")
  | .clock, _ => throwI (.hostOpaque "clock")
  | .input, _ => throwI (.hostOpaque "input")
  | _, [] => throwI .pyIndexError

/-- `zip(params, arguments)` parameter binding of `LoxFunction.call`. -/
def defineZip (envId : Nat) : List Token → List Value → IM Unit
  | p :: ps, a :: rest => do
    frameDefine envId p.lexeme a
    defineZip envId ps rest
  | _, _ => pure ()

/-- The method-dictionary construction loop of the `Class` executor: each
method closes over the *current* environment, and — as the source writes
it — `is_initializer` is `method.name.lexeme == "this"`. -/
def buildMethods : List FunctionDecl → List (String × LoxFunctionV) →
    IM (List (String × LoxFunctionV))
  | [], acc => pure acc
  | method :: rest, acc => do
    let s ← getI
    let function : LoxFunctionV :=
      ⟨method, s.environment, method.name.lexeme == "this", s.nextObjId⟩
    setI { s with nextObjId := s.nextObjId + 1 }
    buildMethods rest (dictInsert acc method.name.lexeme function)

/-- The recursive interface of the interpreter: one entry per recursive
procedure of `Interpreter`, `LoxFunction`, `LoxClass` and `Environment`. -/
structure InterpRec where
  execute : Stmt → IM Unit
  executeSeq : List (Option Stmt) → IM Unit
  executeBlock : List (Option Stmt) → Nat → IM Unit
  evaluate : Expr → IM Value
  evaluateArgs : List Expr → IM (List Value)
  loxFunctionCall : LoxFunctionV → List Value → IM Value
  classCall : LoxClassV → List Value → IM Value
  envGet : Nat → Token → IM Value
  envAssign : Nat → Token → Value → IM Unit

/-- `Environment.get`: current frame, else the enclosing chain, else
`PloxRuntimeError` "Undefined variable". -/
def envGetF (r : InterpRec) (envId : Nat) (name : Token) : IM Value := do
  let s ← getI
  match s.envs[envId]? with
  | none => throwI .badRef
  | some fr =>
    match fr.values.lookup name.lexeme with
    | some v => pure v
    | none =>
      match fr.enclosing with
      | some e => r.envGet e name
      | none =>
        throwI (.plox name ("Undefined variable \x27" ++ name.lexeme ++ "\x27."))

/-- `Environment.assign`: first frame on the chain containing the name,
else `PloxRuntimeError` "Undefined variable". -/
def envAssignF (r : InterpRec) (envId : Nat) (name : Token) (value : Value) :
    IM Unit := do
  let s ← getI
  match s.envs[envId]? with
  | none => throwI .badRef
  | some fr =>
    match fr.values.lookup name.lexeme with
    | some _ => frameDefine envId name.lexeme value
    | none =>
      match fr.enclosing with
      | some e => r.envAssign e name value
      | none =>
        throwI (.plox name ("Undefined variable \x27" ++ name.lexeme ++ "\x27."))

/-- `Interpreter._look_up_variable`: side-table hit reads `get_at(d, name)`
from the current environment, otherwise `globals.get(name)`. -/
def lookUpVariableF (r : InterpRec) (eid : Nat) (name : Token) : IM Value := do
  let s ← getI
  match s.locals.lookup eid with
  | some distance => getAtFrom s.environment distance name.lexeme
  | none => r.envGet s.globalsId name

/-- Dispatch of `function.call(self, arguments)` on the callable's Python
class. -/
def callValueF (r : InterpRec) (callee : Value) (arguments : List Value) :
    IM Value :=
  match callee with
  | .vfunc f => r.loxFunctionCall f arguments
  | .vclass c => r.classCall c arguments
  | .vbuiltin tag => builtinCall tag arguments
  | _ => throwI (.pyAttributeError "call")

/-- `Interpreter.execute_block`: swap in the new environment, run the
statements, and restore the previous environment pointer in a `finally` —
on normal completion, on `Return`, and on runtime errors alike. -/
def executeBlockF (r : InterpRec) (statements : List (Option Stmt))
    (environment : Nat) : IM Unit := fun s =>
  let previous := s.environment
  match r.executeSeq statements { s with environment := environment } with
  | none => none
  | some (res, s') => some (res, { s' with environment := previous })

/-- `LoxFunction.call`: fresh frame over the closure, parameters bound by
position, body via `execute_block`; `Return` is caught here; an
initializer always yields the `this` of its closure. -/
def loxFunctionCallF (r : InterpRec) (f : LoxFunctionV)
    (arguments : List Value) : IM Value := fun s0 =>
  match (do
      let envId ← newEnvironment (some f.closure)
      defineZip envId f.declaration.params arguments
      pure envId : IM Nat) s0 with
  | none => none
  | some (.error e, s1) => some (.error e, s1)
  | some (.ok envId, s1) =>
    match r.executeBlock f.declaration.body envId s1 with
    | none => none
    | some (.error (.ret returnValue), s2) =>
      (if f.isInitializer then getAtFrom f.closure 0 "this"
       else imPure returnValue) s2
    | some (.error e, s2) => some (.error e, s2)
    | some (.ok _, s2) =>
      (if f.isInitializer then getAtFrom f.closure 0 "this"
       else imPure .vnil) s2

/-- `LoxClass.call`: allocate the instance, run a bound `init` if the
class hierarchy has one, and return the instance. -/
def classCallF (r : InterpRec) (c : LoxClassV) (arguments : List Value) :
    IM Value := do
  let s ← getI
  let ref := s.instances.length
  setI { s with instances := s.instances ++ [⟨c, []⟩] }
  match findMethod c "init" with
  | some initializer => do
    let bound ← bindF initializer (.vinstance ref)
    let _ ← r.loxFunctionCall bound arguments
    pure (.vinstance ref)
  | none => pure (.vinstance ref)

/-- The argument loop of the `Call` evaluator (left to right). -/
def evaluateArgsF (r : InterpRec) : List Expr → IM (List Value)
  | [] => pure []
  | e :: rest => do
    let v ← r.evaluate e
    let vs ← r.evaluateArgs rest
    pure (v :: vs)

/-- `Interpreter.evaluate`, one registered visitor per expression kind. -/
def evaluateF (r : InterpRec) : Expr → IM Value
  | .literal v =>
    pure (match v with
      | .lnil => .vnil
      | .lbool b => .vbool b
      | .lnum q => .vnum q
      | .lstr s => .vstr s)
  | .grouping inner => r.evaluate inner
  | .unary operator right => do
    let rightV ← r.evaluate right
    match operator.type with
    | .MINUS => do
      let q ← checkNumberOperand operator rightV
      pure (.vnum (-q))
    | .BANG => pure (.vbool (!(isTruthy rightV)))
    | _ => pure .vnil
  | .binary left operator right => do
    let l ← r.evaluate left
    let rv ← r.evaluate right
    match operator.type with
    | .MINUS => do
      let (p, q) ← checkNumberOperands operator l rv
      pure (.vnum (p - q))
    | .SLASH => do
      let (p, q) ← checkNumberOperands operator l rv
      if q = 0 then throwI .pyZeroDivisionError else pure (.vnum (p / q))
    | .STAR => do
      let (p, q) ← checkNumberOperands operator l rv
      pure (.vnum (p * q))
    | .PLUS =>
      match l, rv with
      | .vnum p, .vnum q => pure (.vnum (p + q))
      | .vstr a, .vstr b => pure (.vstr (a ++ b))
      | _, _ =>
        throwI (.plox operator "Operands must be two numbers or two strings.")
    | .GREATER => do
      let (p, q) ← checkNumberOperands operator l rv
      pure (.vbool (decide (q < p)))
    | .GREATER_EQUAL => do
      let (p, q) ← checkNumberOperands operator l rv
      pure (.vbool (decide (q ≤ p)))
    | .LESS => do
      let (p, q) ← checkNumberOperands operator l rv
      pure (.vbool (decide (p < q)))
    | .LESS_EQUAL => do
      let (p, q) ← checkNumberOperands operator l rv
      pure (.vbool (decide (p ≤ q)))
    | .BANG_EQUAL => pure (.vbool (!(pyEq l rv)))
    | .EQUAL_EQUAL => pure (.vbool (pyEq l rv))
    | _ => pure .vnil
  | .variable eid name => lookUpVariableF r eid name
  | .assign eid name value => do
    let v ← r.evaluate value
    let s ← getI
    match s.locals.lookup eid with
    | some distance => do
      assignAtFrom s.environment distance name v
      pure v
    | none => do
      r.envAssign s.globalsId name v
      pure v
  | .logical left operator right => do
    let l ← r.evaluate left
    if operator.type == .OR then
      if isTruthy l then pure l else r.evaluate right
    else
      if !(isTruthy l) then pure l else r.evaluate right
  | .call callee paren arguments => do
    let calleeV ← r.evaluate callee
    let args ← r.evaluateArgs arguments
    if !(isCallable calleeV) then
      throwI (.plox paren "Can only call functions and classes.")
    else if args.length ≠ arityOf calleeV then
      throwI (.plox paren expectedArgumentsMessage)
    else
      callValueF r calleeV args
  | .get object_ name => do
    let o ← r.evaluate object_
    match o with
    | .vinstance ref => instanceGet ref name
    | _ => throwI (.plox name "Only instances have properties.")
  | .set object_ name value => do
    let o ← r.evaluate object_
    match o with
    | .vinstance ref => do
      let v ← r.evaluate value
      instanceSet ref name v
      pure v
    | _ => throwI (.plox name "Only instances have fields.")
  | .this eid keyword => lookUpVariableF r eid keyword
  | .superE eid _ method => do
    let s ← getI
    match s.locals.lookup eid with
    | none => throwI .pyKeyError
    | some distance => do
      let superclassV ← getAtFrom s.environment distance "super"
      let object_ ← getAtFrom s.environment (distance - 1) "this"
      match superclassV with
      | .vclass c =>
        match findMethod c method.lexeme with
        | none =>
          throwI (.plox method
            ("Undefined property \x27" ++ method.lexeme ++ "\x27."))
        | some m => do
          let bound ← bindF m object_
          pure (.vfunc bound)
      | _ => throwI (.pyAttributeError "find_method")
  | .listInitializer items => do
    let _ ← r.evaluateArgs items
    -- `self.globals.get_by_name("List")`: `Environment` has no
    -- `get_by_name` attribute, so this raises `AttributeError`.
    throwI (.pyAttributeError "get_by_name")

/-- `Interpreter.execute`, one registered visitor per statement kind. -/
def executeF (r : InterpRec) : Stmt → IM Unit
  | .expression e => do
    let _ ← r.evaluate e
    pure ()
  | .print e => do
    let value ← r.evaluate e
    let s ← getI
    setI { s with output := s.output ++ [stringify s value] }
  | .var name initializer => do
    let value ← (match initializer with
      | some init => r.evaluate init
      | none => pure Value.vnil)
    let s ← getI
    frameDefine s.environment name.lexeme value
  | .block statements => do
    let s ← getI
    let envId ← newEnvironment (some s.environment)
    r.executeBlock statements envId
  | .whileS condition body => do
    let c ← r.evaluate condition
    if isTruthy c then do
      r.execute body
      r.execute (Stmt.whileS condition body)
    else
      pure ()
  | .function decl => do
    let s ← getI
    let function : LoxFunctionV := ⟨decl, s.environment, false, s.nextObjId⟩
    setI { s with nextObjId := s.nextObjId + 1 }
    let s' ← getI
    frameDefine s'.environment decl.name.lexeme (.vfunc function)
  | .ret _ value => do
    let v ← (match value with
      | some e => r.evaluate e
      | none => pure Value.vnil)
    throwI (.ret v)
  | .ifS condition thenBranch elseBranch => do
    let c ← r.evaluate condition
    if isTruthy c then
      r.execute thenBranch
    else
      match elseBranch with
      | some e => r.execute e
      | none => pure ()
  | .classS name superclass methods => do
    let superVal ← (match superclass with
      | some sv => do
        let v ← r.evaluate (Expr.variable sv.eid sv.name)
        match v with
        | .vclass c => pure (some c)
        | _ => throwI (.plox sv.name "Superclass must be a class.")
      | none => pure none)
    let s ← getI
    frameDefine s.environment name.lexeme .vnil
    match superclass with
    | some _ => do
      let s1 ← getI
      let envId ← newEnvironment (some s1.environment)
      let s2 ← getI
      setI { s2 with environment := envId }
      frameDefine envId "super"
        (match superVal with | some c => .vclass c | none => .vnil)
    | none => pure ()
    let methodsMap ← buildMethods methods []
    let class_ ← (do
      let s3 ← getI
      let c := LoxClassV.mk name.lexeme superVal methodsMap s3.nextObjId
      setI { s3 with nextObjId := s3.nextObjId + 1 }
      pure c)
    match superclass with
    | some _ => do
      -- `self._environment = self._environment._enclosing`; the frame just
      -- pushed always has an enclosing frame, so the `none` branch is
      -- unreachable.
      let s4 ← getI
      match s4.envs[s4.environment]? with
      | none => throwI .badRef
      | some fr =>
        match fr.enclosing with
        | some e => setI { s4 with environment := e }
        | none => throwI (.pyAttributeError "NoneType")
    | none => pure ()
    let s5 ← getI
    r.envAssign s5.environment name (.vclass class_)

/-- The statement loop of `interpret`/`execute_block`; a `None` entry has
no registered visitor, so the `singledispatchmethod` base raises
`NotImplementedError`. -/
def executeSeqF (r : InterpRec) : List (Option Stmt) → IM Unit
  | [] => pure ()
  | some st :: rest => do
    r.execute st
    r.executeSeq rest
  | none :: _ => throwI .notImplementedError

/-- Everything reports fuel exhaustion. -/
def interpOutOfFuel : InterpRec :=
  ⟨fun _ => fun _ => none, fun _ => fun _ => none, fun _ _ => fun _ => none,
   fun _ => fun _ => none, fun _ => fun _ => none, fun _ _ => fun _ => none,
   fun _ _ => fun _ => none, fun _ _ => fun _ => none,
   fun _ _ _ => fun _ => none⟩

/-- One level of the interpreter family. -/
def interpStep (r : InterpRec) : InterpRec :=
  ⟨executeF r, executeSeqF r, executeBlockF r, evaluateF r, evaluateArgsF r,
   loxFunctionCallF r, classCallF r, envGetF r, envAssignF r⟩

/-- The interpreter family at a given fuel bound. -/
def interpAt : Nat → InterpRec
  | 0 => interpOutOfFuel
  | n + 1 => interpStep (interpAt n)

/-- Fuel-indexed `Interpreter.execute`. -/
def execute (n : Nat) : Stmt → IM Unit := (interpAt n).execute

/-- Fuel-indexed statement-list execution. -/
def executeSeq (n : Nat) : List (Option Stmt) → IM Unit := (interpAt n).executeSeq

/-- Fuel-indexed `Interpreter.execute_block`. -/
def executeBlock (n : Nat) : List (Option Stmt) → Nat → IM Unit :=
  (interpAt n).executeBlock

/-- Fuel-indexed `Interpreter.evaluate`. -/
def evaluate (n : Nat) : Expr → IM Value := (interpAt n).evaluate

/-- Fuel-indexed argument-list evaluation. -/
def evaluateArgs (n : Nat) : List Expr → IM (List Value) :=
  (interpAt n).evaluateArgs

/-- Fuel-indexed `LoxFunction.call`. -/
def loxFunctionCall (n : Nat) : LoxFunctionV → List Value → IM Value :=
  (interpAt n).loxFunctionCall

/-- Fuel-indexed `LoxClass.call`. -/
def classCall (n : Nat) : LoxClassV → List Value → IM Value :=
  (interpAt n).classCall

/-- Fuel-indexed `Environment.get`. -/
def envGet (n : Nat) : Nat → Token → IM Value := (interpAt n).envGet

/-- Fuel-indexed `Environment.assign`. -/
def envAssign (n : Nat) : Nat → Token → Value → IM Unit :=
  (interpAt n).envAssign

/-- `Interpreter.interpret`: execute the statements in order; a
`PloxRuntimeError` is caught and reported through the runtime-error
callback; every other exception (including `ValueError` from a built-in)
escapes. -/
def interpret (n : Nat) (statements : List (Option Stmt)) : IM Unit := fun s =>
  match executeSeq n statements s with
  | none => none
  | some (.error (.plox token message), s') =>
    some (.ok (), { s' with errlog := s'.errlog ++ [(token, message)] })
  | some (.error e, s') => some (.error e, s')
  | some (.ok _, s') => some (.ok (), s')

/-- The globals frame as `run.Application` builds it: `STANDARD_LIBRARY`
with the ten `AnonymousCallable` entries of `standard_library._functions`
in registration order (the unembedded `list`/`listIterator` classes
aside). -/
def standardLibraryFrame : Frame :=
  ⟨[("clock", .vbuiltin .clock), ("input", .vbuiltin .input),
    ("str", .vbuiltin .str), ("float", .vbuiltin .float),
    ("floor", .vbuiltin .floor), ("ceil", .vbuiltin .ceil),
    ("sin", .vbuiltin .sin), ("cos", .vbuiltin .cos),
    ("exp", .vbuiltin .exp), ("log", .vbuiltin .log)], none⟩

/-- Initial interpreter state for a resolved program: the globals frame is
frame 0 and holds the standard library; the side table comes from the
resolver. -/
def initIState (locals : List (Nat × Nat)) : IState :=
  ⟨[standardLibraryFrame], [], 0, 0, locals, [], 0, []⟩

/-- Fuel-indexed `Interpreter._look_up_variable`. -/
def lookUpVariable (n : Nat) : Nat → Token → IM Value :=
  lookUpVariableF (interpAt n)

/-! ### Stepping lemmas for `IM` computations -/

/-- Bind propagates fuel exhaustion. -/
theorem im_bind_none {α β : Type} {m : IM α} {s : IState} {f : α → IM β}
    (h : m s = none) : (m >>= f) s = none := by
  show imBind m f s = none
  unfold imBind
  rw [h]

/-- Bind propagates exceptions. -/
theorem im_bind_err {α β : Type} {m : IM α} {s s' : IState} {e : Exc}
    {f : α → IM β} (h : m s = some (.error e, s')) :
    (m >>= f) s = some (.error e, s') := by
  show imBind m f s = some (.error e, s')
  unfold imBind
  rw [h]

/-- Bind steps through a successful computation. -/
theorem im_bind_ok {α β : Type} {m : IM α} {s s' : IState} {a : α}
    {f : α → IM β} (h : m s = some (.ok a, s')) : (m >>= f) s = f a s' := by
  show imBind m f s = f a s'
  unfold imBind
  rw [h]

/-- An empty statement list executes to `ok` without touching the state. -/
theorem executeSeq_nil {n : Nat} {s : IState} :
    executeSeq (n + 1) [] s = some (.ok (), s) := rfl

/-- A statement list steps through its successful head statement. -/
theorem executeSeq_cons_ok {n : Nat} {st : Stmt} {rest : List (Option Stmt)}
    {s s₁ : IState} (h : execute n st s = some (.ok (), s₁)) :
    executeSeq (n + 1) (some st :: rest) s = executeSeq n rest s₁ :=
  im_bind_ok h

/-- A statement list propagates an exception from its head statement. -/
theorem executeSeq_cons_err {n : Nat} {st : Stmt} {rest : List (Option Stmt)}
    {s s₁ : IState} {e : Exc} (h : execute n st s = some (.error e, s₁)) :
    executeSeq (n + 1) (some st :: rest) s = some (.error e, s₁) :=
  im_bind_err h

/-- `interpret` on a statement sequence that completes normally. -/
theorem interpret_ok {n : Nat} {stmts : List (Option Stmt)} {s s' : IState}
    {u : Unit} (h : executeSeq n stmts s = some (.ok u, s')) :
    interpret n stmts s = some (.ok (), s') := by
  unfold interpret
  rw [h]

/-- `interpret` on a statement sequence that raises `ValueError`: the
exception is not a `PloxRuntimeError`, so it escapes uncaught. -/
theorem interpret_valueError {n : Nat} {stmts : List (Option Stmt)}
    {s s' : IState} {m : String}
    (h : executeSeq n stmts s = some (.error (.pyValueError m), s')) :
    interpret n stmts s = some (.error (.pyValueError m), s') := by
  unfold interpret
  rw [h]

/-! ### Auxiliary observations used by the claim theorems -/

/-- The final state of a normally-completed interpreter run. -/
def finalState : Option (Except Exc Unit × IState) → Option IState
  | some (.ok _, s) => some s
  | _ => none

/-- Value bound to a name in the globals frame after a run. -/
def globalValue (r : Option (Except Exc Unit × IState)) (name : String) :
    Option Value :=
  (finalState r).bind fun s =>
    (s.envs[s.globalsId]?).bind fun fr => fr.values.lookup name

/-- The `is_initializer` flag of the `init` method of a class value. -/
def initFlagOfClass : Option Value → Option Bool
  | some (.vclass c) => (findMethod c "init").map (·.isInitializer)
  | _ => none

/-- Whether a value is a `LoxInstance`. -/
def isInstanceV : Value → Bool
  | .vinstance _ => true
  | _ => false

/-- The Python runtime type (`type(...)`) of a Lox value. -/
inductive VType where
  | noneType | boolType | floatType | strType
  | loxFunctionType | anonymousCallableType | loxClassType | loxInstanceType
deriving DecidableEq, Repr

/-- `type()` of each runtime representation. -/
def runtimeType : Value → VType
  | .vnil => .noneType
  | .vbool _ => .boolType
  | .vnum _ => .floatType
  | .vstr _ => .strType
  | .vfunc _ => .loxFunctionType
  | .vbuiltin _ => .anonymousCallableType
  | .vclass _ => .loxClassType
  | .vinstance _ => .loxInstanceType

/-- The exceptional cross-type equalities Python grants: a `bool` compares
equal to a `float` carrying its numeric value.  (Stated from the amended
claim's words, to be compared against `pyEq`.) -/
def boolNumCheck : Value → Value → Bool
  | .vbool a, .vnum q => numOfBool a == q
  | .vnum q, .vbool a => q == numOfBool a
  | _, _ => false

/-- `Environment.define` on a frame id as a pure state transformer (the
effect of executing `var NAME = ...;` in the scope holding frame
`envId`). -/
def defineIn (s : IState) (envId : Nat) (name : String) (v : Value) : IState :=
  match s.envs[envId]? with
  | some fr =>
    { s with envs := s.envs.set envId { fr with values := dictInsert fr.values name v } }
  | none => s

/-- Pure reading of `Environment._ancestor`: the frame reached from `e` by
`d` enclosing links. -/
def ancestorPure (s : IState) : Nat → Nat → Option Nat
  | 0, e => some e
  | d + 1, e =>
    match s.envs[e]? with
    | some fr =>
      match fr.enclosing with
      | some e' => ancestorPure s d e'
      | none => none
    | none => none

/-- The frame `_look_up_variable` reads a given expression from: the
`distance`-th ancestor of the current environment when the side table has
the expression, the globals frame otherwise. -/
def readTargetFrame (s : IState) (eid : Nat) : Option Nat :=
  match s.locals.lookup eid with
  | some d => ancestorPure s d s.environment
  | none => some s.globalsId

/-! ## Claim theorems about the interpreter -/

/-- An `==` token. -/
def eqeqTok : Token := ⟨.EQUAL_EQUAL, "==", none, 1⟩

/-- An identifier token for the built-in `str`. -/
def strTok : Token := ⟨.IDENTIFIER, "str", none, 1⟩

/-- A closing-parenthesis token anchoring call errors. -/
def rparenTok : Token := ⟨.RIGHT_PAREN, ")", none, 1⟩

/-- C5 counterexample: the claim says operands of different runtime types
always compare unequal, giving a boolean and a number as an example.  But
Lox booleans are Python `bool`s, which compare equal to their numeric
value: the Lox expression `true == 1` evaluates to `true`, although `bool`
and `float` are different runtime types. -/
theorem equality_mixed_bool_number_counterexample :
    evaluate 4 (Expr.binary (Expr.literal (.lbool true)) eqeqTok
        (Expr.literal (.lnum 1))) (initIState []) =
      some (.ok (.vbool true), initIState []) ∧
    runtimeType (.vbool true) ≠ runtimeType (.vnum 1) :=
  ⟨rfl, by decide⟩

/-- C5 amended: `==` is structural on primitives of the same runtime type
(`nil`, booleans, numbers, strings), and operands of different runtime
types compare unequal *except* that a boolean and a number compare equal
exactly when the number equals the boolean's numeric value (`true == 1`,
`false == 0`), because Lox booleans are Python `bool`s.  `nil == false`
remains false. -/
theorem equality_structural_amended :
    (pyEq .vnil .vnil = true) ∧
    (∀ a b : Bool, pyEq (.vbool a) (.vbool b) = (a == b)) ∧
    (∀ p q : ℚ, pyEq (.vnum p) (.vnum q) = (p == q)) ∧
    (∀ a b : String, pyEq (.vstr a) (.vstr b) = (a == b)) ∧
    (pyEq .vnil (.vbool false) = false) ∧
    (∀ v w : Value, runtimeType v ≠ runtimeType w → pyEq v w = boolNumCheck v w) := by
  refine ⟨rfl, fun a b => rfl, fun p q => rfl, fun a b => rfl, rfl, ?_⟩
  intro v w h
  cases v <;> cases w <;> first | rfl | exact absurd rfl h

/-- Witness for the amended equality claim: `true` and the number `2` have
different runtime types, and indeed compare unequal (the boolean/number
exception does not fire, since `2` is not `true`'s numeric value). -/
theorem equality_structural_amended_witness :
    pyEq (.vbool true) (.vnum 2) = false :=
  (equality_structural_amended.2.2.2.2.2 (.vbool true) (.vnum 2)
    (by decide)).trans rfl

/-- C8: the claim says an arity mismatch raises "Expected N arguments but
got M." with the actual counts.  The error is indeed anchored at the
call's closing parenthesis, but the string literal on `interpreting.py`
line 415 lacks the `f` prefix, so the message is the uninterpolated text
`Expected {function.arity()} arguments but got {len(arguments)}.`:
calling the unary built-in `str` with zero arguments shows the constant
message, which is not the interpolated "Expected 1 arguments but got
0.". -/
theorem arity_mismatch_message_not_interpolated :
    evaluate 10 (Expr.call (Expr.variable 0 strTok) rparenTok [])
        (initIState []) =
      some (.error (.plox rparenTok expectedArgumentsMessage), initIState []) ∧
    expectedArgumentsMessage ≠ "Expected 1 arguments but got 0." :=
  ⟨rfl, by decide⟩

/-- C9: the claim says `str` on a non-string, non-number argument fails
with a runtime error reported through the interpreter's runtime-error
callback.  The source instead raises `ValueError`, which
`Interpreter.interpret` does not catch (it catches only
`PloxRuntimeError`): running `str(nil);` makes `interpret` end with the
`ValueError` in flight and an empty runtime-error log — the callback is
never invoked and the exception escapes the interpreter. -/
theorem builtin_str_valueerror_escapes_interpret :
    interpret 10
        [some (Stmt.expression (Expr.call (Expr.variable 0 strTok) rparenTok
          [Expr.literal .lnil]))] (initIState []) =
      some (.error (.pyValueError
        "Built-in function \x27str\x27 expects arguments of type string or float."),
        initIState []) := by
  have h : execute 9
      (Stmt.expression (Expr.call (Expr.variable 0 strTok) rparenTok
        [Expr.literal .lnil])) (initIState []) =
      some (.error (.pyValueError
        "Built-in function \x27str\x27 expects arguments of type string or float."),
        initIState []) := rfl
  exact interpret_valueError (executeSeq_cons_err h)

/-- C10: in a property assignment the target object is evaluated first;
when it is not an instance, the `PloxRuntimeError` "Only instances have
fields." is raised *before* the value expression is evaluated, so the
final state is exactly the state after evaluating the target — the value
expression's side effects never happen. -/
theorem set_target_checked_before_value (n : Nat) (obj : Expr) (name : Token)
    (val : Expr) (s s' : IState) (v : Value)
    (h : evaluate n obj s = some (.ok v, s')) (hv : isInstanceV v = false) :
    evaluate (n + 1) (Expr.set obj name val) s =
      some (.error (.plox name "Only instances have fields."), s') := by
  refine (im_bind_ok h).trans ?_
  cases v <;> first | rfl | simp [isInstanceV] at hv

/-- Witness for the property-assignment ordering theorem at a concrete
input: the target `nil` evaluates without side effects and is no
instance, so `nil.f = "x"` fails with "Only instances have fields." and
the value literal is never evaluated. -/
theorem set_target_checked_before_value_witness :
    evaluate 2 (Expr.set (Expr.literal .lnil) strTok (Expr.literal (.lstr "x")))
        (initIState []) =
      some (.error (.plox strTok "Only instances have fields."), initIState []) :=
  set_target_checked_before_value 1 (Expr.literal .lnil) strTok
    (Expr.literal (.lstr "x")) (initIState []) (initIState []) .vnil rfl rfl

/-- C7: executing a block runs its statements in a fresh environment
enclosing the current one, and `execute_block` restores the previous
environment pointer on every exit path — the second conjunct shows the
`Block` visitor allocates a fresh empty frame enclosing the current
environment, and the first shows that whatever `Except` outcome the body
produces (normal, `Return`, or a runtime error), the resulting state's
environment pointer is the caller's. -/
theorem execute_block_restores_environment :
    (∀ (n : Nat) (stmts : List (Option Stmt)) (envId : Nat) (s : IState)
        (res : Except Exc Unit) (s' : IState),
      executeBlock (n + 1) stmts envId s = some (res, s') →
      s'.environment = s.environment) ∧
    (∀ (n : Nat) (stmts : List (Option Stmt)) (s : IState),
      execute (n + 1) (Stmt.block stmts) s =
        executeBlock n stmts s.envs.length
          { s with envs := s.envs ++ [⟨[], some s.environment⟩] }) := by
  constructor
  · intro n stmts envId s res s' h
    have h' : executeBlockF (interpAt n) stmts envId s = some (res, s') := h
    unfold executeBlockF at h'
    rcases hm : (interpAt n).executeSeq stmts { s with environment := envId } with
      _ | ⟨r2, s2⟩
    · rw [hm] at h'
      exact absurd h' (by simp)
    · rw [hm] at h'
      injection h' with h''
      injection h'' with _ hs
      rw [← hs]
  · intro n stmts s
    rfl

/-- An identifier token for an undefined name. -/
def yTok : Token := ⟨.IDENTIFIER, "y", none, 1⟩

/-- The state the environment-restoration witness runs in: the standard
library globals plus one enclosed frame, which is current. -/
def blockWitnessState : IState :=
  ⟨[standardLibraryFrame, ⟨[], some 0⟩], [], 0, 1, [], [], 0, []⟩

/-- Witness for the environment-restoration theorem on its runtime-error
exit path: a block body reading an undefined variable fails with a
`PloxRuntimeError`, and the final environment pointer still equals the
initial one. -/
theorem execute_block_restores_environment_witness :
    executeBlock 8 [some (Stmt.expression (Expr.variable 0 yTok))] 0
        blockWitnessState =
      some (.error (.plox yTok "Undefined variable \x27y\x27."),
        blockWitnessState) ∧
    blockWitnessState.environment = blockWitnessState.environment :=
  ⟨rfl,
   execute_block_restores_environment.1 7
     [some (Stmt.expression (Expr.variable 0 yTok))] 0 blockWitnessState
     (.error (.plox yTok "Undefined variable \x27y\x27.")) blockWitnessState rfl⟩

/-- An identifier token spelled `X`. -/
def xTok : Token := ⟨.IDENTIFIER, "X", none, 1⟩

/-- C4: the claim says the resolver reports "A class can\x27t inherit from
itself." through the error callback at the offending token (and that file
mode then exits with 65).  In the source, `resolving.py` line 117 passes
only the message to the two-parameter callback, so resolving
`class X < X \x7b\x7d` raises `TypeError` instead: the walk aborts with the
exception in flight and the error list still empty — nothing is ever
reported, and the process dies with a traceback (exit code 1), not 65. -/
theorem resolver_inherit_self_raises_type_error :
    resolveStmt 2 (Stmt.classS xTok (some ⟨0, xTok⟩) [])
        ⟨[], [], [], .NONE, .NONE⟩ =
      (.error .typeErrorOneArgCallback, ⟨[], [], [], .NONE, .CLASS⟩) := rfl

/-- An identifier token spelled `C`. -/
def cTok : Token := ⟨.IDENTIFIER, "C", none, 1⟩

/-- An identifier token spelled `init`. -/
def initTok : Token := ⟨.IDENTIFIER, "init", none, 1⟩

/-- The declaration of the empty method `init() \x7b\x7d`. -/
def initDecl : FunctionDecl := FunctionDecl.mk initTok [] []

/-- The program `class C \x7b init() \x7b\x7d \x7d print C().init();`. -/
def prog1 : List (Option Stmt) :=
  [some (Stmt.classS cTok none [initDecl]),
   some (Stmt.print (Expr.call
     (Expr.get (Expr.call (Expr.variable 0 cTok) rparenTok []) initTok)
     rparenTok []))]

/-- The class value the `Class` executor builds for `prog1`: its `init`
carries `is_initializer = false`, because the source compares the method
name against `"this"`. -/
def classC : LoxClassV :=
  LoxClassV.mk "C" none [("init", ⟨initDecl, 0, false, 0⟩)] 1

/-- State after executing the class declaration of `prog1`. -/
def c1s1 : IState :=
  ⟨[⟨standardLibraryFrame.values ++ [("C", .vclass classC)], none⟩],
   [], 0, 0, [], [], 2, []⟩

/-- State after the whole of `prog1`: the `print` produced `"nil"`. -/
def c1s2 : IState :=
  ⟨[⟨standardLibraryFrame.values ++ [("C", .vclass classC)], none⟩,
    ⟨[("this", .vinstance 0)], some 0⟩,
    ⟨[], some 1⟩,
    ⟨[("this", .vinstance 0)], some 0⟩,
    ⟨[], some 3⟩],
   [⟨classC, []⟩], 0, 0, [], ["nil"], 4, []⟩
/-- Intermediate state of `prog1`: after evaluating `C()`. -/
def c1sA : IState :=
  ⟨[⟨standardLibraryFrame.values ++ [("C", .vclass classC)], none⟩,
    ⟨[("this", .vinstance 0)], some 0⟩,
    ⟨[], some 1⟩],
   [⟨classC, []⟩], 0, 0, [], [], 3, []⟩

/-- Intermediate state of `prog1`: after binding `C().init`. -/
def c1sB : IState :=
  ⟨[⟨standardLibraryFrame.values ++ [("C", .vclass classC)], none⟩,
    ⟨[("this", .vinstance 0)], some 0⟩,
    ⟨[], some 1⟩,
    ⟨[("this", .vinstance 0)], some 0⟩],
   [⟨classC, []⟩], 0, 0, [], [], 4, []⟩

/-- Intermediate state of `prog1`: after calling the bound `init`. -/
def c1sC : IState :=
  ⟨[⟨standardLibraryFrame.values ++ [("C", .vclass classC)], none⟩,
    ⟨[("this", .vinstance 0)], some 0⟩,
    ⟨[], some 1⟩,
    ⟨[("this", .vinstance 0)], some 0⟩,
    ⟨[], some 3⟩],
   [⟨classC, []⟩], 0, 0, [], [], 4, []⟩

/-- C1: the claim says each method's `is_initializer` flag is true exactly
when the method is named `init`, so a bound call to `init` returns the
bound `this`.  The source instead compares the method name against
`"this"` (`interpreting.py` line 268): executing
`class C \x7b init() \x7b\x7d \x7d` stores `init` with
`is_initializer = false`, and `print C().init();` accordingly prints
`nil` instead of `C instance`. -/
theorem init_method_flag_false_and_bound_init_returns_nil :
    initFlagOfClass (globalValue (interpret 14 prog1 (initIState [])) "C") =
      some false ∧
    (finalState (interpret 14 prog1 (initIState []))).map (·.output) =
      some ["nil"] := by
  have h1 : execute 13 (Stmt.classS cTok none [initDecl]) (initIState []) =
      some (.ok (), c1s1) := rfl
  have hA : evaluate 9 (Expr.call (Expr.variable 0 cTok) rparenTok []) c1s1 =
      some (.ok (.vinstance 0), c1sA) := rfl
  have hGet : instanceGet 0 initTok c1sA =
      some (.ok (.vfunc ⟨initDecl, 3, false, 3⟩), c1sB) := rfl
  have hB : evaluate 10
      (Expr.get (Expr.call (Expr.variable 0 cTok) rparenTok []) initTok) c1s1 =
      some (.ok (.vfunc ⟨initDecl, 3, false, 3⟩), c1sB) :=
    (im_bind_ok hA).trans hGet
  have hargs : evaluateArgs 10 ([] : List Expr) c1sB = some (.ok [], c1sB) := rfl
  have hLfc : loxFunctionCall 10 ⟨initDecl, 3, false, 3⟩ [] c1sB =
      some (.ok .vnil, c1sC) := rfl
  have hCall : evaluate 11 (Expr.call
      (Expr.get (Expr.call (Expr.variable 0 cTok) rparenTok []) initTok)
      rparenTok []) c1s1 = some (.ok .vnil, c1sC) :=
    (im_bind_ok hB).trans ((im_bind_ok hargs).trans hLfc)
  have h2 : execute 12 (Stmt.print (Expr.call
      (Expr.get (Expr.call (Expr.variable 0 cTok) rparenTok []) initTok)
      rparenTok [])) c1s1 = some (.ok (), c1s2) :=
    (im_bind_ok hCall).trans rfl
  have hseq : executeSeq 14 prog1 (initIState []) = some (.ok (), c1s2) :=
    (executeSeq_cons_ok h1).trans ((executeSeq_cons_ok h2).trans executeSeq_nil)
  have hrun : interpret 14 prog1 (initIState []) = some (.ok (), c1s2) :=
    interpret_ok hseq
  rw [hrun]
  exact ⟨rfl, rfl⟩
/-! ### Stability of `_look_up_variable` under unrelated definitions (C6) -/

/-- `List.set` seen through `getElem?`. -/
theorem list_getElem_set {α : Type} (l : List α) (i j : Nat) (a : α) :
    (l.set i a)[j]? = if j = i then (l[j]?).map (fun _ => a) else l[j]? := by
  induction l generalizing i j with
  | nil => simp
  | cons x xs ih =>
    cases i with
    | zero =>
      cases j with
      | zero => simp
      | succ j => simp
    | succ i =>
      cases j with
      | zero => simp [List.set]
      | succ j =>
        simp only [List.set, List.getElem?_cons_succ, ih i j]
        by_cases hj : j = i <;> simp [hj]

/-- `define` on one frame leaves the side table unchanged. -/
theorem defineIn_locals (s : IState) (d : Nat) (nm : String) (v : Value) :
    (defineIn s d nm v).locals = s.locals := by
  unfold defineIn
  rcases h : s.envs[d]? with _ | fr <;> simp [h]

/-- `define` on one frame leaves the current environment unchanged. -/
theorem defineIn_environment (s : IState) (d : Nat) (nm : String) (v : Value) :
    (defineIn s d nm v).environment = s.environment := by
  unfold defineIn
  rcases h : s.envs[d]? with _ | fr <;> simp [h]

/-- `define` on one frame leaves the globals id unchanged. -/
theorem defineIn_globalsId (s : IState) (d : Nat) (nm : String) (v : Value) :
    (defineIn s d nm v).globalsId = s.globalsId := by
  unfold defineIn
  rcases h : s.envs[d]? with _ | fr <;> simp [h]

/-- Frames after a `define`: the target frame gains the binding, all other
frames are untouched. -/
theorem defineIn_envs_get (s : IState) (d : Nat) (nm : String) (v : Value)
    (j : Nat) :
    (defineIn s d nm v).envs[j]? =
      if j = d then
        (s.envs[j]?).map (fun fr => { fr with values := dictInsert fr.values nm v })
      else s.envs[j]? := by
  unfold defineIn
  rcases h : s.envs[d]? with _ | fr
  · show s.envs[j]? = _
    by_cases hj : j = d
    · subst hj
      simp [h]
    · simp [hj]
  · show (s.envs.set d { fr with values := dictInsert fr.values nm v })[j]? = _
    rw [list_getElem_set]
    by_cases hj : j = d
    · subst hj
      rw [h]
      simp
    · simp [hj]

/-- A `define` never changes any frame's enclosing pointer, so ancestor
walks are unaffected. -/
theorem ancestorPure_defineIn (s : IState) (d : Nat) (nm : String) (v : Value) :
    ∀ (k e : Nat), ancestorPure (defineIn s d nm v) k e = ancestorPure s k e := by
  intro k
  induction k with
  | zero => intro e; rfl
  | succ k ih =>
    intro e
    simp only [ancestorPure]
    rw [defineIn_envs_get]
    by_cases he : e = d
    · subst he
      rcases h : s.envs[e]? with _ | fr
      · simp [h]
      · simp only [h, if_pos rfl, Option.map_some]
        rcases he2 : fr.enclosing with _ | e2 <;> simp [he2, ih]
    · simp only [if_neg he]
      rcases h : s.envs[e]? with _ | fr
      · simp [h]
      · simp only [h]
        rcases he2 : fr.enclosing with _ | e2 <;> simp [he2, ih]

/-- A successful pure ancestor walk agrees with the monadic
`Environment._ancestor`. -/
theorem ancestorFrom_of_pure :
    ∀ (k e a : Nat) (s : IState), ancestorPure s k e = some a →
      ancestorFrom k e s = some (.ok a, s) := by
  intro k
  induction k with
  | zero =>
    intro e a s h
    injection h with h
    rw [← h]
    rfl
  | succ k ih =>
    intro e a s h
    simp only [ancestorPure] at h
    rcases hf : s.envs[e]? with _ | fr
    · simp only [hf] at h
      exact Option.noConfusion h
    · simp only [hf] at h
      rcases he : fr.enclosing with _ | e2
      · simp only [he] at h
        exact Option.noConfusion h
      · simp only [he] at h
        refine (im_bind_ok (show getI s = some (.ok s, s) from rfl)).trans ?_
        simp only [hf, he]
        exact ih e2 a s h

/-- `Environment.get_at` evaluated through a successful ancestor walk. -/
theorem getAtFrom_eval (start dist : Nat) (name : String) (rf : Nat)
    (st : IState) (hst : ancestorFrom dist start st = some (.ok rf, st)) :
    getAtFrom start dist name st =
      (match st.envs[rf]? with
       | none => some (.error Exc.badRef, st)
       | some fr => some (.ok ((fr.values.lookup name).getD Value.vnil), st)) := by
  refine (im_bind_ok hst).trans ?_
  refine (im_bind_ok (show getI st = some (.ok st, st) from rfl)).trans ?_
  rcases hf : st.envs[rf]? with _ | fr <;> (simp only [hf]; rfl)

/-- Reading through the side table is unaffected by a `define` on any frame
other than the one the resolver points the read at. -/
theorem getAtFrom_defineIn (s : IState) (d : Nat) (nm : String) (v : Value)
    (start dist : Nat) (name : String) (rf : Nat)
    (hrf : ancestorPure s dist start = some rf) (hne : d ≠ rf) :
    (getAtFrom start dist name (defineIn s d nm v)).map (·.1) =
    (getAtFrom start dist name s).map (·.1) := by
  have h1 : ancestorFrom dist start s = some (.ok rf, s) :=
    ancestorFrom_of_pure dist start rf s hrf
  have h2 : ancestorFrom dist start (defineIn s d nm v) =
      some (.ok rf, defineIn s d nm v) :=
    ancestorFrom_of_pure dist start rf (defineIn s d nm v)
      ((ancestorPure_defineIn s d nm v dist start).trans hrf)
  rw [getAtFrom_eval start dist name rf s h1,
    getAtFrom_eval start dist name rf (defineIn s d nm v) h2]
  rw [defineIn_envs_get]
  rw [if_neg (fun h => hne h.symm)]
  rcases hf : s.envs[rf]? with _ | fr <;> simp [hf]

/-- `Environment.get` on the globals frame, one level unfolded: with no
enclosing frame, the result is the frame's own binding or "Undefined
variable". -/
theorem envGet_eval (n : Nat) (gid : Nat) (name : Token) (st : IState) :
    envGet (n + 1) gid name st =
      (match st.envs[gid]? with
       | none => some (.error Exc.badRef, st)
       | some fr =>
         match fr.values.lookup name.lexeme with
         | some v' => some (.ok v', st)
         | none =>
           match fr.enclosing with
           | some e => envGet n e name st
           | none => some (.error (Exc.plox name
               ("Undefined variable \x27" ++ name.lexeme ++ "\x27.")), st)) := by
  refine (im_bind_ok (show getI st = some (.ok st, st) from rfl)).trans ?_
  rcases hf : st.envs[gid]? with _ | fr
  · simp only [hf]
    rfl
  · simp only [hf]
    rcases hv : fr.values.lookup name.lexeme with _ | v'
    · simp only [hv]
      rcases he : fr.enclosing with _ | e <;> (simp only [he]; rfl)
    · simp only [hv]
      rfl

/-- A global read is unaffected by a `define` on a non-globals frame,
provided the globals frame has no enclosing frame (as in every state the
pipeline builds). -/
theorem envGet_defineIn_global (n : Nat) (s : IState) (d : Nat) (nm : String)
    (v : Value) (name : Token) (hne : d ≠ s.globalsId)
    (hglob : ∀ gfr, s.envs[s.globalsId]? = some gfr → gfr.enclosing = none) :
    (envGet (n + 1) s.globalsId name (defineIn s d nm v)).map (·.1) =
    (envGet (n + 1) s.globalsId name s).map (·.1) := by
  rw [envGet_eval, envGet_eval]
  rw [defineIn_envs_get]
  rw [if_neg (fun h => hne h.symm)]
  rcases hf : s.envs[s.globalsId]? with _ | fr
  · rfl
  · rcases hv : fr.values.lookup name.lexeme with _ | v'
    · simp only [hv]
      rw [hglob fr hf]
      rfl
    · simp [hv]
  

/-- `_look_up_variable`, one level unfolded. -/
theorem lookUpVariable_eval (n : Nat) (eid : Nat) (name : Token) (st : IState) :
    lookUpVariable (n + 1) eid name st =
      (match st.locals.lookup eid with
       | some dist => getAtFrom st.environment dist name.lexeme st
       | none => envGet (n + 1) st.globalsId name st) := by
  refine (im_bind_ok (show getI st = some (.ok st, st) from rfl)).trans ?_
  rcases hl : st.locals.lookup eid with _ | dist <;> (simp only [hl]; try rfl)

/-- Stability of `_look_up_variable`: defining (or redefining) a name in
any frame other than the one the resolver's side table points the
expression at — in particular, shadowing an outer variable in a scope the
closure does not read — does not change the value the lookup produces. -/
theorem lookUpVariable_stable (n : Nat) (s : IState) (eid : Nat) (name : Token)
    (d : Nat) (nm : String) (v : Value) (rf : Nat)
    (hrf : readTargetFrame s eid = some rf) (hne : d ≠ rf)
    (hglob : ∀ gfr, s.envs[s.globalsId]? = some gfr → gfr.enclosing = none) :
    (lookUpVariable (n + 1) eid name (defineIn s d nm v)).map (·.1) =
    (lookUpVariable (n + 1) eid name s).map (·.1) := by
  rw [lookUpVariable_eval, lookUpVariable_eval]
  rw [defineIn_locals, defineIn_environment, defineIn_globalsId]
  unfold readTargetFrame at hrf
  rcases hl : s.locals.lookup eid with _ | dist
  · rw [hl] at hrf
    injection hrf with hrf
    simp only [hl]
    rw [← hrf] at hne
    exact envGet_defineIn_global n s d nm v name hne hglob
  · rw [hl] at hrf
    simp only [hl]
    exact getAtFrom_defineIn s d nm v s.environment dist name.lexeme rf hrf hne


/-! ### The C6 scenario -/

/-- An identifier token spelled `x`. -/
def xNameTok : Token := ⟨.IDENTIFIER, "x", none, 1⟩

/-- An identifier token spelled `f`. -/
def fTok : Token := ⟨.IDENTIFIER, "f", none, 2⟩

/-- The declaration `fun f() \x7b print x; \x7d` (the `x` node has
identity 0). -/
def fDecl : FunctionDecl :=
  FunctionDecl.mk fTok [] [some (Stmt.print (Expr.variable 0 xNameTok))]

/-- The inner block of the C6 program (the `f` node in the call has
identity 1). -/
def c6blockStmt : Stmt :=
  Stmt.block
    [some (Stmt.function fDecl),
     some (Stmt.var xNameTok (some (Expr.literal (.lstr "local")))),
     some (Stmt.expression (Expr.call (Expr.variable 1 fTok) rparenTok []))]

/-- The program
`var x = "global"; \x7b fun f() \x7b print x; \x7d var x = "local"; f(); \x7d`. -/
def prog6 : List (Option Stmt) :=
  [some (Stmt.var xNameTok (some (Expr.literal (.lstr "global")))),
   some c6blockStmt]

/-- State after the global `var x = "global";`. -/
def c6s1 : IState :=
  ⟨[⟨standardLibraryFrame.values ++ [("x", .vstr "global")], none⟩],
   [], 0, 0, [(1, 0)], [], 0, []⟩

/-- State after the whole of `prog6`: the closure printed `"global"`. -/
def c6s2 : IState :=
  ⟨[⟨standardLibraryFrame.values ++ [("x", .vstr "global")], none⟩,
    ⟨[("f", .vfunc ⟨fDecl, 1, false, 0⟩), ("x", .vstr "local")], some 0⟩,
    ⟨[], some 1⟩],
   [], 0, 0, [(1, 0)], ["global"], 1, []⟩

/-- C6: a closure observes the binding its variable references were
resolved to.  First conjunct (stability): defining or redefining a name in
any frame other than the one the resolver's side table points a given
variable expression at — e.g. shadowing an outer variable after a closure
captured it — leaves the value `_look_up_variable` produces unchanged.
Second and third conjuncts run the claim's program through the resolver
and the interpreter: the closure `f` reads the global `x`, the later
`var x = "local"` defines into the block frame, and the program prints
`global`. -/
theorem closure_observes_captured_binding :
    (∀ (n : Nat) (s : IState) (eid : Nat) (name : Token) (d : Nat)
        (nm : String) (v : Value) (rf : Nat),
      readTargetFrame s eid = some rf → d ≠ rf →
      (∀ gfr, s.envs[s.globalsId]? = some gfr → gfr.enclosing = none) →
      (lookUpVariable (n + 1) eid name (defineIn s d nm v)).map (·.1) =
        (lookUpVariable (n + 1) eid name s).map (·.1)) ∧
    resolveStmts 12 prog6 ⟨[], [], [], .NONE, .NONE⟩ =
      (.ok (), ⟨[], [], [(1, 0)], .NONE, .NONE⟩) ∧
    (finalState (interpret 16 prog6 (initIState [(1, 0)]))).map (·.output) =
      some ["global"] := by
  refine ⟨fun n s eid name d nm v rf hrf hne hglob =>
    lookUpVariable_stable n s eid name d nm v rf hrf hne hglob, rfl, ?_⟩
  have h1 : execute 15 (Stmt.var xNameTok (some (Expr.literal (.lstr "global"))))
      (initIState [(1, 0)]) = some (.ok (), c6s1) := rfl
  have h2 : execute 14 c6blockStmt c6s1 = some (.ok (), c6s2) := rfl
  have hseq : executeSeq 16 prog6 (initIState [(1, 0)]) = some (.ok (), c6s2) :=
    (executeSeq_cons_ok h1).trans ((executeSeq_cons_ok h2).trans executeSeq_nil)
  rw [interpret_ok hseq]
  rfl

/-- The state of the stability witness: a globals frame binding `x` to
`"global"`, and a current inner frame about to shadow it. -/
def c6WitnessState : IState :=
  ⟨[⟨[("x", .vstr "global")], none⟩, ⟨[], some 0⟩], [], 0, 1, [], [], 0, []⟩

/-- Witness for the stability conjunct: an unresolved (global) read of `x`
still yields `"global"` after `var x = "local"` defines into the inner
frame. -/
theorem closure_observes_captured_binding_witness :
    (lookUpVariable 5 0 xNameTok
        (defineIn c6WitnessState 1 "x" (.vstr "local"))).map (·.1) =
      (lookUpVariable 5 0 xNameTok c6WitnessState).map (·.1) ∧
    (lookUpVariable 5 0 xNameTok c6WitnessState).map (·.1) =
      some (.ok (.vstr "global")) :=
  ⟨closure_observes_captured_binding.1 4 c6WitnessState 0 xNameTok 1 "x"
      (.vstr "local") 0 rfl (by decide)
      (fun gfr h => by injection h with h2; rw [← h2]; rfl),
   rfl⟩

end Plox
